import Mathlib

/-
  Verification of the HiPIMS OpenCL compute core (hipims-ocl).

  Shallow embedding of the device kernels:
    - the CFL timestep controller `tst_Advance_Normal`
      (src/Schemes/Limiters/CLSlopeLimiterMINMOD.clc, CFL DYNAMIC TIMESTEP part),
    - the point-implicit friction update `implicitFriction` / `per_Friction`
      (src/Schemes/CLFriction.clc),
    - the depth-positivity interface reconstruction `reconstructInterface`,
      the HLLC solver `riemannSolver`, and the Godunov scheme kernel
      `gts_cacheDisabled` (Godunov scheme file, src/Solvers/CLSolverHLLC.clc),
    - the simplified inertial scheme `ine_cacheDisabled` and
      `calculateInertialFlux`,
    - the boundary kernels `bdy_Cell`, `bdy_Uniform`, `bdy_Gridded`,
      `bdy_StreamingGridded` and `bdy_SimplePipe`
      (src/Boundaries/CLBoundaries.clc).

  Conventions of the embedding:
    - `double` arithmetic is modelled exactly: over `ℚ` where the kernel uses
      only field operations and comparisons, and over `ℝ` where the kernel
      uses `sqrt`, `pow`, `log10`, `acos` or `sin`.  Rounding is not modelled.
    - an OpenCL kernel that can return without writing is modelled as a
      function into `Option`; `none` means the kernel performed no write and
      the target buffer retains its previous contents.
    - the deliberate `sqrt(-1.0)` NaN poison of `bdy_SimplePipe` is modelled
      by `Option ℝ` on the discharge value: `none` is NaN, `some v` a finite
      value.  No other NaN source is reachable in the modelled fragment.
    - build-time macro constants generated by the host (DOMAIN_DELTAX,
      COURANT_NUMBER, SCHEME_ENDTIME, FROUDE_LIMIT, domain extents) are
      fields of explicit configuration records; constants with values fixed
      in the sources keep their values.
-/

/-! ## Constants from the sources

`GRAVITY`, `GRAVITY_R`, `GRAVITY2_R` and `PI` are the literal values of
CLUniversalHeader.clh; the `TIMESTEP_*` constants are from the CFL timestep
header; `TIMESTEP_HYDROLOGICAL` is from CLBoundaries.clh.  Note that
`GRAVITY_R` and `GRAVITY2_R` are the hard-coded decimal literals of the
header, not exact reciprocals. -/

def GRAVITY : ℚ := 9.80665

def GRAVITY_R : ℚ := 0.10197162129779282426

def GRAVITY2_R : ℚ := 0.05098581064889641213

def PI : ℚ := 3.14159265359

def TIMESTEP_EARLY_LIMIT : ℚ := 0.1

def TIMESTEP_EARLY_LIMIT_DURATION : ℚ := 60.0

def TIMESTEP_START_MINIMUM : ℚ := 1e-10

def TIMESTEP_START_MINIMUM_DURATION : ℚ := 1.0

def TIMESTEP_MINIMUM : ℚ := 1e-10

def TIMESTEP_MAXIMUM : ℚ := 15.0

def TIMESTEP_HYDROLOGICAL : ℚ := 0.25

/-- Modelled from the spec: `VERY_SMALL` (the wet/dry threshold ε ≈ 1e-14) is
defined in the host-generated domain header, which is not among the provided
source files; the spec fixes it as `ε = VERY_SMALL ≈ 1e-14`. -/
def VERY_SMALL : ℚ := 1e-14

/-- Modelled from the spec: direction constants from the host-generated domain
header.  The values are pinned by the scheme kernel itself, which stores the
flux for direction `d` in `pFlux[d]` and then forms
`(pFlux[1] - pFlux[3]) / Δx + (pFlux[0] - pFlux[2]) / Δy`,
so N = 0, E = 1, S = 2, W = 3. -/
def DOMAIN_DIR_N : ℕ := 0

/-- East direction constant (see `DOMAIN_DIR_N`). -/
def DOMAIN_DIR_E : ℕ := 1

/-- South direction constant (see `DOMAIN_DIR_N`). -/
def DOMAIN_DIR_S : ℕ := 2

/-- West direction constant (see `DOMAIN_DIR_N`). -/
def DOMAIN_DIR_W : ℕ := 3

/-! ## Data model

`Cell4 K` is the `cl_double4` cell state `(x, y, z, w)` =
`(η free-surface level, η_max running maximum, q_x, q_y)`.  `Rec8 K` is the
`cl_double8` reconstruction record `(Z, H, Qx, Qy, U, V, Zb, unused)` of the
Godunov scheme. -/

structure Cell4 (K : Type) where
  x : K
  y : K
  z : K
  w : K
deriving DecidableEq, Repr

structure Rec8 (K : Type) where
  S0 : K
  S1 : K
  S2 : K
  S3 : K
  S4 : K
  S5 : K
  S6 : K
  S7 : K
deriving DecidableEq, Repr

/-- A cell is disabled (masked out of the computation) when the running
maximum level carries the sentinel, or the level itself is the sentinel.
This is the guard `pCellData.y <= -9999.0 || pCellData.x == -9999.0`
appearing in the scheme and gridded-boundary kernels. -/
def cellDisabled {K : Type} [LinearOrderedField K] (c : Cell4 K) : Prop :=
  c.y ≤ -9999 ∨ c.x = -9999

instance {K : Type} [LinearOrderedField K] (c : Cell4 K) :
    Decidable (cellDisabled c) := by
  unfold cellDisabled; infer_instance

/-- Modelled from the spec: `getCellID` is produced by the host-generated
domain header; the spec defines the linear index of the cell at column `i`,
row `j` as `id(i,j) = j·C + i`. -/
def getCellID (cols : ℤ) (i j : ℤ) : ℕ :=
  (j * cols + i).toNat

/-- Modelled from the spec: `getNeighbourByIndices` from the host-generated
domain header; the neighbour in direction `d` is the adjacent cell.  The
kernels only call it from interior cells, where no clamping is involved. -/
def getNeighbourByIndices (cols : ℤ) (i j : ℤ) (dir : ℕ) : ℕ :=
  if dir = DOMAIN_DIR_N then getCellID cols i (j + 1)
  else if dir = DOMAIN_DIR_E then getCellID cols (i + 1) j
  else if dir = DOMAIN_DIR_S then getCellID cols i (j - 1)
  else getCellID cols (i - 1) j

/-! ## CFL timestep controller (`tst_Advance_Normal`, TIMESTEP_DYNAMIC build)

The controller is a single-work-item kernel over the timestep scalar block.
It is modelled over `ℚ` (it uses only field operations and comparisons).
The reduction buffer `pReductionData[0 .. TIMESTEP_WORKERS-1]` is modelled as
a list. -/

/-- Host-generated build constants used by the timestep controller. -/
structure TstConfig where
  DOMAIN_DELTAX : ℚ
  DOMAIN_DELTAY : ℚ
  COURANT_NUMBER : ℚ
  SCHEME_ENDTIME : ℚ
deriving DecidableEq, Repr

/-- The timestep scalar block: simulation time, current timestep,
hydrological sub-clock, sync barrier time, batch timestep sum and the two
batch counters. -/
structure TstState where
  dTime : ℚ
  dTimestep : ℚ
  dTimeHydrological : ℚ
  dTimeSync : ℚ
  dBatchTimesteps : ℚ
  uiBatchSuccessful : ℕ
  uiBatchSkipped : ℕ
deriving DecidableEq, Repr

/-- Maximum over the reduction buffer, as computed by the
`for i < TIMESTEP_WORKERS` loop of the controller:
`dMaxSpeed = fmax(dMaxSpeed, pReductionData[i])` starting from `0.0`. -/
def tst_maxSpeed (pReductionData : List ℚ) : ℚ :=
  pReductionData.foldl max 0

/-- The TIMESTEP_DYNAMIC candidate timestep: `dMinTime = DOMAIN_DELTAX /
dMaxSpeed` (the code assumes `Δx = Δy` here), raised to
`TIMESTEP_START_MINIMUM` during the first `TIMESTEP_START_MINIMUM_DURATION`
seconds, then multiplied by the Courant number. -/
def tst_dynamicTimestep (cfg : TstConfig) (pReductionData : List ℚ)
    (dLclTime : ℚ) : ℚ :=
  let dMaxSpeed := tst_maxSpeed pReductionData
  let dMinTime := cfg.DOMAIN_DELTAX / dMaxSpeed
  let dMinTime :=
    if dLclTime < TIMESTEP_START_MINIMUM_DURATION ∧
        dMinTime < TIMESTEP_START_MINIMUM
    then TIMESTEP_START_MINIMUM else dMinTime
  cfg.COURANT_NUMBER * dMinTime

/-- Impose a minimum timestep: a positive timestep is raised to
`TIMESTEP_MINIMUM`. -/
def tst_imposeMinimum (dLclTimestep : ℚ) : ℚ :=
  if 0 < dLclTimestep ∧ dLclTimestep < TIMESTEP_MINIMUM
  then TIMESTEP_MINIMUM else dLclTimestep

/-- Sync-barrier clamp: if the updated time plus the timestep reaches the
sync time, the timestep is clamped to the remaining gap when that gap
exceeds `VERY_SMALL`, and otherwise negated (a negative timestep suspends
the simulation and signals the host). -/
def tst_syncClamp (dLclTime dLclSyncTime dLclTimestep : ℚ) : ℚ :=
  if dLclSyncTime ≤ dLclTime + dLclTimestep then
    (if (VERY_SMALL : ℚ) < dLclSyncTime - dLclTime
     then dLclSyncTime - dLclTime
     else -dLclTimestep)
  else dLclTimestep

/-- The trailing limits of the controller: the early limit during the first
`TIMESTEP_EARLY_LIMIT_DURATION` seconds, the cap to the end of simulation,
and the `TIMESTEP_MAXIMUM` cap. -/
def tst_finalLimits (cfg : TstConfig) (dLclTime dLclTimestep : ℚ) : ℚ :=
  let dLclTimestep :=
    if dLclTime < TIMESTEP_EARLY_LIMIT_DURATION ∧
        TIMESTEP_EARLY_LIMIT < dLclTimestep
    then TIMESTEP_EARLY_LIMIT else dLclTimestep
  let dLclTimestep := min dLclTimestep (cfg.SCHEME_ENDTIME - dLclTime)
  min dLclTimestep TIMESTEP_MAXIMUM

/-- The `tst_Advance_Normal` kernel (TIMESTEP_DYNAMIC build): clamp the
incoming timestep to `max(0, Δt)`, advance the clocks and counters, compute
the CFL candidate from the reduction buffer, and apply the minimum, sync,
early, end-of-simulation and maximum limits, in the order of the source. -/
def tst_Advance_Normal (cfg : TstConfig) (pReductionData : List ℚ)
    (s : TstState) : TstState :=
  let dLclTimestep := max 0 s.dTimestep
  let dLclTime := s.dTime + dLclTimestep
  let dLclBatchTimesteps := s.dBatchTimesteps + dLclTimestep
  let uiLclBatchSuccessful :=
    s.uiBatchSuccessful + (if 0 < dLclTimestep then 1 else 0)
  let uiLclBatchSkipped :=
    s.uiBatchSkipped + (if dLclTimestep ≤ 0 then 1 else 0)
  let dLclTimeHydrological :=
    (if s.dTimeHydrological ≤ TIMESTEP_HYDROLOGICAL
     then s.dTimeHydrological else 0) + dLclTimestep
  let dLclTimestep := tst_dynamicTimestep cfg pReductionData dLclTime
  let dLclTimestep := tst_imposeMinimum dLclTimestep
  let dLclTimestep := tst_syncClamp dLclTime s.dTimeSync dLclTimestep
  let dLclTimestep := tst_finalLimits cfg dLclTime dLclTimestep
  { dTime := dLclTime
    dTimestep := dLclTimestep
    dTimeHydrological := dLclTimeHydrological
    dTimeSync := s.dTimeSync
    dBatchTimesteps := dLclBatchTimesteps
    uiBatchSuccessful := uiLclBatchSuccessful
    uiBatchSkipped := uiLclBatchSkipped }

/-! ## Stage lemmas for the timestep controller -/

lemma le_foldl_max (l : List ℚ) (a : ℚ) : a ≤ l.foldl max a := by
  induction l generalizing a with
  | nil => exact le_refl a
  | cons hd tl ih => exact le_trans (le_max_left a hd) (ih (max a hd))

lemma tst_maxSpeed_nonneg (l : List ℚ) : 0 ≤ tst_maxSpeed l :=
  le_foldl_max l 0

lemma tst_dynamicTimestep_nonneg (cfg : TstConfig) (buf : List ℚ) (t : ℚ)
    (hC : 0 ≤ cfg.COURANT_NUMBER) (hX : 0 ≤ cfg.DOMAIN_DELTAX) :
    0 ≤ tst_dynamicTimestep cfg buf t := by
  simp only [tst_dynamicTimestep]
  have hm : 0 ≤ cfg.DOMAIN_DELTAX / tst_maxSpeed buf :=
    div_nonneg hX (tst_maxSpeed_nonneg buf)
  split_ifs with h
  · exact mul_nonneg hC (by norm_num [TIMESTEP_START_MINIMUM])
  · exact mul_nonneg hC hm

lemma tst_dynamicTimestep_le (cfg : TstConfig) (buf : List ℚ) (t : ℚ) :
    tst_dynamicTimestep cfg buf t ≤
      max (cfg.COURANT_NUMBER * cfg.DOMAIN_DELTAX / tst_maxSpeed buf)
        (cfg.COURANT_NUMBER * TIMESTEP_START_MINIMUM) := by
  simp only [tst_dynamicTimestep]
  split_ifs with h
  · exact le_max_right _ _
  · exact le_max_of_le_left (le_of_eq (mul_div_assoc _ _ _).symm)

lemma tst_imposeMinimum_nonneg (dt : ℚ) (h : 0 ≤ dt) :
    0 ≤ tst_imposeMinimum dt := by
  unfold tst_imposeMinimum
  split_ifs with hc
  · norm_num [TIMESTEP_MINIMUM]
  · exact h

lemma tst_imposeMinimum_le (dt : ℚ) :
    tst_imposeMinimum dt ≤ max dt TIMESTEP_MINIMUM := by
  unfold tst_imposeMinimum
  split_ifs with hc
  · exact le_max_right _ _
  · exact le_max_left _ _

lemma tst_syncClamp_cases (t ts dt : ℚ) (h : 0 ≤ dt) :
    tst_syncClamp t ts dt ≤ 0 ∨
      (tst_syncClamp t ts dt ≤ dt ∧ t + tst_syncClamp t ts dt ≤ ts) := by
  unfold tst_syncClamp
  split_ifs with h1 h2
  · right; constructor
    · linarith
    · linarith
  · left; linarith
  · right; exact ⟨le_refl dt, by linarith⟩

lemma tst_finalLimits_le (cfg : TstConfig) (t dt : ℚ) :
    tst_finalLimits cfg t dt ≤ dt := by
  simp only [tst_finalLimits]
  split_ifs with h
  · exact le_trans (min_le_left _ _) (le_trans (min_le_left _ _) (le_of_lt h.2))
  · exact le_trans (min_le_left _ _) (min_le_left _ _)

/-- The committed timestep of `tst_Advance_Normal` is the composition of the
four stages applied at the updated time. -/
lemma tst_Advance_Normal_dTimestep (cfg : TstConfig) (buf : List ℚ)
    (s : TstState) :
    (tst_Advance_Normal cfg buf s).dTimestep =
      tst_finalLimits cfg (s.dTime + max 0 s.dTimestep)
        (tst_syncClamp (s.dTime + max 0 s.dTimestep) s.dTimeSync
          (tst_imposeMinimum
            (tst_dynamicTimestep cfg buf (s.dTime + max 0 s.dTimestep)))) :=
  rfl

/-- The committed time of `tst_Advance_Normal`. -/
lemma tst_Advance_Normal_dTime (cfg : TstConfig) (buf : List ℚ)
    (s : TstState) :
    (tst_Advance_Normal cfg buf s).dTime = s.dTime + max 0 s.dTimestep :=
  rfl

/-- C2 (counterexample): the minimum-timestep floor of the controller can
raise the committed timestep strictly above the CFL bound
`C·min(Δx,Δy)/s_max` while keeping it positive.  With `Δx = Δy = 1`,
`C = 1/2`, `s_max = 2·10^12`, at `t = 100` far from the sync barrier, the
CFL candidate `2.5·10^-13` is raised to `TIMESTEP_MINIMUM = 10^-10`. -/
theorem claim_C2_counterexample :
    ¬ ((tst_Advance_Normal ⟨1, 1, 1/2, 1000000000⟩ [2000000000000]
          ⟨100, 1, 0, 1000000000, 0, 0, 0⟩).dTimestep ≤
        (1/2 : ℚ) * min (1 : ℚ) 1 / tst_maxSpeed [2000000000000] ∨
      (tst_Advance_Normal ⟨1, 1, 1/2, 1000000000⟩ [2000000000000]
          ⟨100, 1, 0, 1000000000, 0, 0, 0⟩).dTimestep ≤ 0) := by
  have h : (tst_Advance_Normal ⟨1, 1, 1/2, 1000000000⟩ [2000000000000]
      ⟨100, 1, 0, 1000000000, 0, 0, 0⟩).dTimestep = 1/10000000000 := by
    norm_num [tst_Advance_Normal, tst_dynamicTimestep, tst_imposeMinimum,
      tst_syncClamp, tst_finalLimits, tst_maxSpeed,
      TIMESTEP_START_MINIMUM_DURATION, TIMESTEP_START_MINIMUM,
      TIMESTEP_MINIMUM, TIMESTEP_EARLY_LIMIT, TIMESTEP_EARLY_LIMIT_DURATION,
      TIMESTEP_MAXIMUM, TIMESTEP_HYDROLOGICAL, VERY_SMALL, max_def, min_def]
  rw [h]
  norm_num [tst_maxSpeed]

/-- C2 (amended): after `tst_Advance_Normal` (dynamic-timestep build) the
committed timestep satisfies `Δt ≤ 0` or
`Δt ≤ max(C·Δx/s_max, C·TIMESTEP_START_MINIMUM, TIMESTEP_MINIMUM)`,
where `Δx` is the single spacing the controller uses (the build assumes
`Δx = Δy`) and `s_max` is the maximum wave speed over the reduction
buffer. -/
theorem claim_C2_amended (cfg : TstConfig) (buf : List ℚ) (s : TstState)
    (hC : 0 ≤ cfg.COURANT_NUMBER) (hX : 0 ≤ cfg.DOMAIN_DELTAX) :
    (tst_Advance_Normal cfg buf s).dTimestep ≤ 0 ∨
      (tst_Advance_Normal cfg buf s).dTimestep ≤
        max (cfg.COURANT_NUMBER * cfg.DOMAIN_DELTAX / tst_maxSpeed buf)
          (max (cfg.COURANT_NUMBER * TIMESTEP_START_MINIMUM)
            TIMESTEP_MINIMUM) := by
  have hfinal := tst_Advance_Normal_dTimestep cfg buf s
  set T := s.dTime + max 0 s.dTimestep with hT
  set d0 := tst_dynamicTimestep cfg buf T with hd0
  set d1 := tst_imposeMinimum d0 with hd1
  set d2 := tst_syncClamp T s.dTimeSync d1 with hd2
  have h0 : 0 ≤ d0 := tst_dynamicTimestep_nonneg cfg buf T hC hX
  have h1 : 0 ≤ d1 := tst_imposeMinimum_nonneg d0 h0
  have hB : d1 ≤
      max (cfg.COURANT_NUMBER * cfg.DOMAIN_DELTAX / tst_maxSpeed buf)
        (max (cfg.COURANT_NUMBER * TIMESTEP_START_MINIMUM)
          TIMESTEP_MINIMUM) :=
    le_trans (tst_imposeMinimum_le d0)
      (le_trans (max_le_max (tst_dynamicTimestep_le cfg buf T) le_rfl)
        (le_of_eq (max_assoc _ _ _)))
  rcases tst_syncClamp_cases T s.dTimeSync d1 h1 with h2 | ⟨h2a, _⟩
  · left; rw [hfinal]; exact le_trans (tst_finalLimits_le cfg T d2) h2
  · right; rw [hfinal]
    exact le_trans (tst_finalLimits_le cfg T d2) (le_trans h2a hB)

/-- C2 (witness): the amended bound instantiated at a concrete
configuration. -/
theorem claim_C2_amended_witness :
    (tst_Advance_Normal ⟨1, 1, 1/2, 1000000000⟩ [2000000000000]
        ⟨100, 1, 0, 1000000000, 0, 0, 0⟩).dTimestep ≤ 0 ∨
      (tst_Advance_Normal ⟨1, 1, 1/2, 1000000000⟩ [2000000000000]
          ⟨100, 1, 0, 1000000000, 0, 0, 0⟩).dTimestep ≤
        max ((1:ℚ)/2 * 1 / tst_maxSpeed [2000000000000])
          (max ((1:ℚ)/2 * TIMESTEP_START_MINIMUM) TIMESTEP_MINIMUM) :=
  claim_C2_amended ⟨1, 1, 1/2, 1000000000⟩ [2000000000000]
    ⟨100, 1, 0, 1000000000, 0, 0, 0⟩ (by norm_num) (by norm_num)

/-- C6: in `tst_Advance_Normal`, when the candidate timestep would carry the
advanced time past the sync barrier, it is clamped to the remaining gap when
that gap exceeds `VERY_SMALL` and negated otherwise; consequently the
committed state satisfies `Δt ≤ 0` or `t + Δt ≤ t_sync`. -/
theorem claim_C6_sync (cfg : TstConfig) (buf : List ℚ) (s : TstState)
    (t ts dt : ℚ)
    (hC : 0 ≤ cfg.COURANT_NUMBER) (hX : 0 ≤ cfg.DOMAIN_DELTAX) :
    (ts ≤ t + dt → VERY_SMALL < ts - t → tst_syncClamp t ts dt = ts - t) ∧
    (ts ≤ t + dt → ts - t ≤ VERY_SMALL → tst_syncClamp t ts dt = -dt) ∧
    ((tst_Advance_Normal cfg buf s).dTimestep ≤ 0 ∨
      (tst_Advance_Normal cfg buf s).dTime +
        (tst_Advance_Normal cfg buf s).dTimestep ≤ s.dTimeSync) := by
  refine ⟨?_, ?_, ?_⟩
  · intro h1 h2; unfold tst_syncClamp; rw [if_pos h1, if_pos h2]
  · intro h1 h2; unfold tst_syncClamp
    rw [if_pos h1, if_neg (not_lt.mpr h2)]
  · have hfinal := tst_Advance_Normal_dTimestep cfg buf s
    have hTime := tst_Advance_Normal_dTime cfg buf s
    set T := s.dTime + max 0 s.dTimestep with hT
    set d0 := tst_dynamicTimestep cfg buf T with hd0
    set d1 := tst_imposeMinimum d0 with hd1
    set d2 := tst_syncClamp T s.dTimeSync d1 with hd2
    have h0 : 0 ≤ d0 := tst_dynamicTimestep_nonneg cfg buf T hC hX
    have h1 : 0 ≤ d1 := tst_imposeMinimum_nonneg d0 h0
    have hle : tst_finalLimits cfg T d2 ≤ d2 := tst_finalLimits_le cfg T d2
    rcases tst_syncClamp_cases T s.dTimeSync d1 h1 with h2 | ⟨_, h2b⟩
    · left; rw [hfinal]; exact le_trans hle h2
    · right; rw [hfinal, hTime]; linarith

/-- C6 (witness): the sync-clamp facts and the committed invariant at a
concrete configuration and state. -/
theorem claim_C6_sync_witness :
    ((10 : ℚ) ≤ 9 + 5 → VERY_SMALL < (10 : ℚ) - 9 →
      tst_syncClamp 9 10 5 = 10 - 9) ∧
    ((10 : ℚ) ≤ 9 + 5 → (10 : ℚ) - 9 ≤ VERY_SMALL →
      tst_syncClamp 9 10 5 = -5) ∧
    ((tst_Advance_Normal ⟨1, 1, 1/2, 1000⟩ [1]
        ⟨0, 0, 0, 100, 0, 0, 0⟩).dTimestep ≤ 0 ∨
      (tst_Advance_Normal ⟨1, 1, 1/2, 1000⟩ [1]
          ⟨0, 0, 0, 100, 0, 0, 0⟩).dTime +
        (tst_Advance_Normal ⟨1, 1, 1/2, 1000⟩ [1]
            ⟨0, 0, 0, 100, 0, 0, 0⟩).dTimestep ≤ 100) :=
  claim_C6_sync ⟨1, 1, 1/2, 1000⟩ [1] ⟨0, 0, 0, 100, 0, 0, 0⟩ 9 10 5
    (by norm_num) (by norm_num)

/-- C9: the controller clamps the incoming timestep to `max(0, Δt)` before
advancing the clocks, so the committed simulation time and batch timestep
sum never decrease, and a non-positive incoming timestep increments the
skipped counter (not the successful counter) while a positive one does the
opposite. -/
theorem claim_C9_advance (cfg : TstConfig) (buf : List ℚ) (s : TstState) :
    (tst_Advance_Normal cfg buf s).dTime = s.dTime + max 0 s.dTimestep ∧
    s.dTime ≤ (tst_Advance_Normal cfg buf s).dTime ∧
    s.dBatchTimesteps ≤ (tst_Advance_Normal cfg buf s).dBatchTimesteps ∧
    (s.dTimestep ≤ 0 →
      (tst_Advance_Normal cfg buf s).uiBatchSkipped = s.uiBatchSkipped + 1 ∧
      (tst_Advance_Normal cfg buf s).uiBatchSuccessful =
        s.uiBatchSuccessful) ∧
    (0 < s.dTimestep →
      (tst_Advance_Normal cfg buf s).uiBatchSuccessful =
        s.uiBatchSuccessful + 1 ∧
      (tst_Advance_Normal cfg buf s).uiBatchSkipped = s.uiBatchSkipped) := by
  have hmax : (0 : ℚ) ≤ max 0 s.dTimestep := le_max_left 0 _
  have hskip : (tst_Advance_Normal cfg buf s).uiBatchSkipped =
      s.uiBatchSkipped + (if max 0 s.dTimestep ≤ 0 then 1 else 0) := rfl
  have hsucc : (tst_Advance_Normal cfg buf s).uiBatchSuccessful =
      s.uiBatchSuccessful + (if 0 < max 0 s.dTimestep then 1 else 0) := rfl
  have hbatch : (tst_Advance_Normal cfg buf s).dBatchTimesteps =
      s.dBatchTimesteps + max 0 s.dTimestep := rfl
  refine ⟨rfl, ?_, ?_, ?_, ?_⟩
  · rw [tst_Advance_Normal_dTime]; linarith
  · rw [hbatch]; linarith
  · intro h
    have hc : max 0 s.dTimestep ≤ 0 := max_le le_rfl h
    constructor
    · rw [hskip, if_pos hc]
    · rw [hsucc, if_neg (not_lt.mpr hc), Nat.add_zero]
  · intro h
    have hc : 0 < max 0 s.dTimestep := lt_max_iff.mpr (Or.inr h)
    constructor
    · rw [hsucc, if_pos hc]
    · rw [hskip, if_neg (not_le.mpr hc), Nat.add_zero]

/-- C9 (witness): a negative incoming timestep at a concrete state advances
time by zero and increments only the skipped counter. -/
theorem claim_C9_advance_witness :
    ((-1 : ℚ) ≤ 0) ∧
    (tst_Advance_Normal ⟨1, 1, 1/2, 10⟩ []
        ⟨2, -1, 0, 10, 7, 3, 4⟩).uiBatchSkipped = 4 + 1 ∧
    (tst_Advance_Normal ⟨1, 1, 1/2, 10⟩ []
        ⟨2, -1, 0, 10, 7, 3, 4⟩).uiBatchSuccessful = 3 :=
  ⟨by norm_num,
    (claim_C9_advance ⟨1, 1, 1/2, 10⟩ [] ⟨2, -1, 0, 10, 7, 3, 4⟩).2.2.2.1
      (by norm_num)⟩

/-! ## Point-implicit friction (`implicitFriction`, `per_Friction`)

CLFriction.clc uses `sqrt` and `pow(·, 1/3)`, so this part is modelled over
`ℝ`.  The local variables of the source are factored into named
definitions; `implicitFriction` assembles them exactly in source order. -/

/-- Composite discharge `dQ = sqrt(q_x² + q_y²)` of `implicitFriction`. -/
noncomputable def friction_dQ (pCellState : Cell4 ℝ) : ℝ :=
  Real.sqrt (pCellState.z * pCellState.z + pCellState.w * pCellState.w)

/-- Friction coefficient `dCf = g·n² / h^(1/3)` of `implicitFriction`. -/
noncomputable def friction_dCf (dDepth dManningCoefficient : ℝ) : ℝ :=
  (GRAVITY : ℝ) * dManningCoefficient * dManningCoefficient /
    dDepth ^ ((1 : ℝ) / 3)

/-- The x friction acceleration `dFx = dSfx / dDx` of `implicitFriction`,
with `dSfx = (-dCf/h²)·q_x·Q` and
`dDx = 1 + Δt·(dCf/h²)·(2q_x² + q_y²)/Q`. -/
noncomputable def friction_dFx (pCellState : Cell4 ℝ)
    (dDepth dManningCoefficient dLclTimestep : ℝ) : ℝ :=
  let dQ := friction_dQ pCellState
  let dQi := 1 / dQ
  let sDepthR := 1 / (dDepth * dDepth)
  let dCf := friction_dCf dDepth dManningCoefficient
  let dSfx := (-dCf * sDepthR) * pCellState.z * dQ
  let dDx := 1 + dLclTimestep * (dCf * sDepthR) *
    (2 * (pCellState.z * pCellState.z) + pCellState.w * pCellState.w) * dQi
  dSfx / dDx

/-- The y friction acceleration `dFy = dSfy / dDy` of `implicitFriction`. -/
noncomputable def friction_dFy (pCellState : Cell4 ℝ)
    (dDepth dManningCoefficient dLclTimestep : ℝ) : ℝ :=
  let dQ := friction_dQ pCellState
  let dQi := 1 / dQ
  let sDepthR := 1 / (dDepth * dDepth)
  let dCf := friction_dCf dDepth dManningCoefficient
  let dSfy := (-dCf * sDepthR) * pCellState.w * dQ
  let dDy := 1 + dLclTimestep * (dCf * sDepthR) *
    (pCellState.z * pCellState.z + 2 * (pCellState.w * pCellState.w)) * dQi
  dSfy / dDy

/-- The anti-reversal clamp of `implicitFriction` (friction can only stop
flow, not reverse it): for `q ≥ 0` the acceleration is raised to
`-q·(1/Δt)`, for `q < 0` lowered to it.  `dLclTimestepR` is `1/Δt`. -/
noncomputable def friction_clamp (q dF dLclTimestepR : ℝ) : ℝ :=
  if 0 ≤ q then max dF (-q * dLclTimestepR) else min dF (-q * dLclTimestepR)

/-- The `implicitFriction` function of CLFriction.clc: return unchanged for
a negligible composite discharge, otherwise apply the clamped point-implicit
friction accelerations to both discharge components. -/
noncomputable def implicitFriction (pCellState : Cell4 ℝ)
    (dBedElevation dDepth dManningCoefficient dLclTimestep : ℝ) : Cell4 ℝ :=
  let dQ := friction_dQ pCellState
  if dQ < (VERY_SMALL : ℝ) then pCellState
  else
    let dLclTimestepR := 1 / dLclTimestep
    { pCellState with
        z := pCellState.z + dLclTimestep *
          friction_clamp pCellState.z
            (friction_dFx pCellState dDepth dManningCoefficient dLclTimestep)
            dLclTimestepR
        w := pCellState.w + dLclTimestep *
          friction_clamp pCellState.w
            (friction_dFy pCellState dDepth dManningCoefficient dLclTimestep)
            dLclTimestepR }

/-- The standalone `per_Friction` kernel: skip the domain perimeter, skip
when the timestep is not positive or the depth negligible, otherwise apply
`implicitFriction` to the cell in place.  `none` models no write. -/
noncomputable def per_Friction (cols rows : ℤ) (dTimestep : ℝ)
    (pCellData : ℕ → Cell4 ℝ) (dBedData dManningData : ℕ → ℝ)
    (lIdxX lIdxY : ℤ) : Option (Cell4 ℝ) :=
  if cols - 1 ≤ lIdxX ∨ rows - 1 ≤ lIdxY ∨ lIdxX = 0 ∨ lIdxY = 0 then none
  else if dTimestep ≤ 0 then none
  else
    let ulIdx := getCellID cols lIdxX lIdxY
    let pCellState := pCellData ulIdx
    let dBedElevation := dBedData ulIdx
    let dDepth := pCellState.x - dBedElevation
    if dDepth < (VERY_SMALL : ℝ) then none
    else some (implicitFriction pCellState dBedElevation dDepth
      (dManningData ulIdx) dTimestep)

/-! ## Friction stage lemmas -/

lemma friction_clamp_bounds (q dF dt : ℝ) (hdt : 0 < dt)
    (hpos : 0 ≤ q → dF ≤ 0) (hneg : q < 0 → 0 ≤ dF) :
    |q + dt * friction_clamp q dF (1 / dt)| ≤ |q| ∧
    (0 ≤ q → 0 ≤ q + dt * friction_clamp q dF (1 / dt)) ∧
    (q ≤ 0 → q + dt * friction_clamp q dF (1 / dt) ≤ 0) := by
  have hdt0 : dt ≠ 0 := ne_of_gt hdt
  have hkey : dt * (-q * (1 / dt)) = -q := by
    field_simp
    ring
  have hdtiv : 0 < 1 / dt := one_div_pos.mpr hdt
  unfold friction_clamp
  by_cases hq : 0 ≤ q
  · rw [if_pos hq]
    have hnn : -q * (1 / dt) ≤ 0 := by nlinarith
    have hmle : max dF (-q * (1 / dt)) ≤ 0 := max_le (hpos hq) hnn
    have hmge : -q * (1 / dt) ≤ max dF (-q * (1 / dt)) := le_max_right _ _
    have hub : q + dt * max dF (-q * (1 / dt)) ≤ q := by
      have : dt * max dF (-q * (1 / dt)) ≤ 0 :=
        mul_nonpos_iff.mpr (Or.inl ⟨hdt.le, hmle⟩)
      linarith
    have hlb : 0 ≤ q + dt * max dF (-q * (1 / dt)) := by
      have := mul_le_mul_of_nonneg_left hmge hdt.le
      rw [hkey] at this
      linarith
    refine ⟨?_, fun _ => hlb, fun hq0 => le_trans hub hq0⟩
    rw [abs_of_nonneg hlb, abs_of_nonneg hq]
    exact hub
  · push_neg at hq
    rw [if_neg (not_le.mpr hq)]
    have hnn : 0 ≤ -q * (1 / dt) := by nlinarith
    have hmge : 0 ≤ min dF (-q * (1 / dt)) := le_min (hneg hq) hnn
    have hmle : min dF (-q * (1 / dt)) ≤ -q * (1 / dt) := min_le_right _ _
    have hlb : q ≤ q + dt * min dF (-q * (1 / dt)) := by
      have : 0 ≤ dt * min dF (-q * (1 / dt)) := mul_nonneg hdt.le hmge
      linarith
    have hub : q + dt * min dF (-q * (1 / dt)) ≤ 0 := by
      have := mul_le_mul_of_nonneg_left hmle hdt.le
      rw [hkey] at this
      linarith
    refine ⟨?_, fun h0 => absurd h0 (not_le.mpr hq), fun _ => hub⟩
    rw [abs_of_nonpos hub, abs_of_nonpos hq.le]
    linarith

lemma friction_dCf_nonneg (dDepth n : ℝ) (hh : 0 < dDepth) :
    0 ≤ friction_dCf dDepth n := by
  unfold friction_dCf
  apply div_nonneg
  · have hg : (0 : ℝ) ≤ (GRAVITY : ℝ) := by norm_num [GRAVITY]
    nlinarith [mul_self_nonneg n]
  · exact (Real.rpow_pos_of_pos hh _).le

lemma friction_dFx_sign (c : Cell4 ℝ) (dDepth n dt : ℝ) (hh : 0 < dDepth)
    (hdt : 0 ≤ dt) (hQpos : 0 < friction_dQ c) :
    (0 ≤ c.z → friction_dFx c dDepth n dt ≤ 0) ∧
    (c.z ≤ 0 → 0 ≤ friction_dFx c dDepth n dt) := by
  have hCf : 0 ≤ friction_dCf dDepth n := friction_dCf_nonneg dDepth n hh
  have hsR : (0 : ℝ) ≤ 1 / (dDepth * dDepth) := by positivity
  have hQi : (0 : ℝ) ≤ 1 / friction_dQ c := (one_div_pos.mpr hQpos).le
  have hD : (0 : ℝ) < 1 + dt * (friction_dCf dDepth n * (1 / (dDepth * dDepth))) *
      (2 * (c.z * c.z) + c.w * c.w) * (1 / friction_dQ c) := by
    have h1 : (0 : ℝ) ≤ dt * (friction_dCf dDepth n * (1 / (dDepth * dDepth))) *
        (2 * (c.z * c.z) + c.w * c.w) * (1 / friction_dQ c) := by
      apply mul_nonneg
      apply mul_nonneg
      · exact mul_nonneg hdt (mul_nonneg hCf hsR)
      · nlinarith [mul_self_nonneg c.z, mul_self_nonneg c.w]
      · exact hQi
    linarith
  have hcoef : -friction_dCf dDepth n * (1 / (dDepth * dDepth)) ≤ 0 :=
    mul_nonpos_iff.mpr (Or.inr ⟨neg_nonpos.mpr hCf, hsR⟩)
  simp only [friction_dFx]
  constructor
  · intro hz
    have h2 : -friction_dCf dDepth n * (1 / (dDepth * dDepth)) * c.z ≤ 0 :=
      mul_nonpos_iff.mpr (Or.inr ⟨hcoef, hz⟩)
    have h3 : -friction_dCf dDepth n * (1 / (dDepth * dDepth)) * c.z *
        friction_dQ c ≤ 0 :=
      mul_nonpos_iff.mpr (Or.inr ⟨h2, hQpos.le⟩)
    exact div_nonpos_iff.mpr (Or.inr ⟨h3, hD.le⟩)
  · intro hz
    have h2 : 0 ≤ -friction_dCf dDepth n * (1 / (dDepth * dDepth)) * c.z := by
      nlinarith
    have h3 : 0 ≤ -friction_dCf dDepth n * (1 / (dDepth * dDepth)) * c.z *
        friction_dQ c := mul_nonneg h2 hQpos.le
    exact div_nonneg h3 hD.le

lemma friction_dFy_sign (c : Cell4 ℝ) (dDepth n dt : ℝ) (hh : 0 < dDepth)
    (hdt : 0 ≤ dt) (hQpos : 0 < friction_dQ c) :
    (0 ≤ c.w → friction_dFy c dDepth n dt ≤ 0) ∧
    (c.w ≤ 0 → 0 ≤ friction_dFy c dDepth n dt) := by
  have hCf : 0 ≤ friction_dCf dDepth n := friction_dCf_nonneg dDepth n hh
  have hsR : (0 : ℝ) ≤ 1 / (dDepth * dDepth) := by positivity
  have hQi : (0 : ℝ) ≤ 1 / friction_dQ c := (one_div_pos.mpr hQpos).le
  have hD : (0 : ℝ) < 1 + dt * (friction_dCf dDepth n * (1 / (dDepth * dDepth))) *
      (c.z * c.z + 2 * (c.w * c.w)) * (1 / friction_dQ c) := by
    have h1 : (0 : ℝ) ≤ dt * (friction_dCf dDepth n * (1 / (dDepth * dDepth))) *
        (c.z * c.z + 2 * (c.w * c.w)) * (1 / friction_dQ c) := by
      apply mul_nonneg
      apply mul_nonneg
      · exact mul_nonneg hdt (mul_nonneg hCf hsR)
      · nlinarith [mul_self_nonneg c.z, mul_self_nonneg c.w]
      · exact hQi
    linarith
  have hcoef : -friction_dCf dDepth n * (1 / (dDepth * dDepth)) ≤ 0 :=
    mul_nonpos_iff.mpr (Or.inr ⟨neg_nonpos.mpr hCf, hsR⟩)
  simp only [friction_dFy]
  constructor
  · intro hw
    have h2 : -friction_dCf dDepth n * (1 / (dDepth * dDepth)) * c.w ≤ 0 :=
      mul_nonpos_iff.mpr (Or.inr ⟨hcoef, hw⟩)
    have h3 : -friction_dCf dDepth n * (1 / (dDepth * dDepth)) * c.w *
        friction_dQ c ≤ 0 :=
      mul_nonpos_iff.mpr (Or.inr ⟨h2, hQpos.le⟩)
    exact div_nonpos_iff.mpr (Or.inr ⟨h3, hD.le⟩)
  · intro hw
    have h2 : 0 ≤ -friction_dCf dDepth n * (1 / (dDepth * dDepth)) * c.w := by
      nlinarith
    have h3 : 0 ≤ -friction_dCf dDepth n * (1 / (dDepth * dDepth)) * c.w *
        friction_dQ c := mul_nonneg h2 hQpos.le
    exact div_nonneg h3 hD.le

/-- C3: for depth and composite discharge at least `VERY_SMALL` and a
positive timestep, the point-implicit friction update changes each discharge
component monotonically: the magnitude never grows and the sign is
preserved (a component may reach zero but never reverses); the level and
maximum-level fields are untouched. -/
theorem claim_C3_friction_monotone (c : Cell4 ℝ) (zb dDepth n dt : ℝ)
    (hh : (VERY_SMALL : ℝ) ≤ dDepth)
    (hQ : (VERY_SMALL : ℝ) ≤ friction_dQ c)
    (hdt : 0 < dt) :
    |(implicitFriction c zb dDepth n dt).z| ≤ |c.z| ∧
    |(implicitFriction c zb dDepth n dt).w| ≤ |c.w| ∧
    (0 ≤ c.z → 0 ≤ (implicitFriction c zb dDepth n dt).z) ∧
    (c.z ≤ 0 → (implicitFriction c zb dDepth n dt).z ≤ 0) ∧
    (0 ≤ c.w → 0 ≤ (implicitFriction c zb dDepth n dt).w) ∧
    (c.w ≤ 0 → (implicitFriction c zb dDepth n dt).w ≤ 0) ∧
    (implicitFriction c zb dDepth n dt).x = c.x ∧
    (implicitFriction c zb dDepth n dt).y = c.y := by
  have hVS : (0 : ℝ) < (VERY_SMALL : ℝ) := by norm_num [VERY_SMALL]
  have hQpos : 0 < friction_dQ c := lt_of_lt_of_le hVS hQ
  have hhpos : 0 < dDepth := lt_of_lt_of_le hVS hh
  have hnotlt : ¬ friction_dQ c < (VERY_SMALL : ℝ) := not_lt.mpr hQ
  have hFx := friction_dFx_sign c dDepth n dt hhpos hdt.le hQpos
  have hFy := friction_dFy_sign c dDepth n dt hhpos hdt.le hQpos
  have hz := friction_clamp_bounds c.z (friction_dFx c dDepth n dt) dt hdt
    hFx.1 (fun hlt => hFx.2 hlt.le)
  have hw := friction_clamp_bounds c.w (friction_dFy c dDepth n dt) dt hdt
    hFy.1 (fun hlt => hFy.2 hlt.le)
  simp only [implicitFriction, if_neg hnotlt]
  refine ⟨hz.1, hw.1, hz.2.1, hz.2.2, hw.2.1, hw.2.2, ?_, ?_⟩ <;> trivial

/-- C3 (witness): the friction monotonicity instantiated at a unit-depth
cell with `q_x = 1`, `q_y = 0`, `n = 0.03`, `Δt = 1`. -/
theorem claim_C3_friction_monotone_witness :
    |(implicitFriction ⟨2, 2, 1, 0⟩ 1 1 0.03 1).z| ≤ |(1 : ℝ)| ∧
    |(implicitFriction ⟨2, 2, 1, 0⟩ 1 1 0.03 1).w| ≤ |(0 : ℝ)| ∧
    ((0 : ℝ) ≤ 1 → 0 ≤ (implicitFriction ⟨2, 2, 1, 0⟩ 1 1 0.03 1).z) ∧
    ((1 : ℝ) ≤ 0 → (implicitFriction ⟨2, 2, 1, 0⟩ 1 1 0.03 1).z ≤ 0) ∧
    ((0 : ℝ) ≤ 0 → 0 ≤ (implicitFriction ⟨2, 2, 1, 0⟩ 1 1 0.03 1).w) ∧
    ((0 : ℝ) ≤ 0 → (implicitFriction ⟨2, 2, 1, 0⟩ 1 1 0.03 1).w ≤ 0) ∧
    (implicitFriction ⟨2, 2, 1, 0⟩ 1 1 0.03 1).x = 2 ∧
    (implicitFriction ⟨2, 2, 1, 0⟩ 1 1 0.03 1).y = 2 :=
  claim_C3_friction_monotone ⟨2, 2, 1, 0⟩ 1 1 0.03 1
    (by norm_num [VERY_SMALL])
    (by norm_num [friction_dQ, VERY_SMALL, Real.sqrt_one])
    (by norm_num)

/-! ## Depth-positivity interface reconstruction (`reconstructInterface`)

The Godunov scheme file.  The function mutates two `cl_double8` records in
place; the embedding threads them through shadowing `let` bindings in source
order.  The stopping-condition `switch` block is factored into
`reconstruct_stopping`. -/

/-- The stopping-condition `switch (ucDirection)` block of
`reconstructInterface`: count the stopping conditions and zero the offending
velocity components (`S5` along N/S, `S4` along E/W).  Checks run in source
order; the third check reads the left record after a possible `S5`/`S4`
zeroing by the second, which leaves `S1` untouched. -/
noncomputable def reconstruct_stopping (pStateLeft pStateRight : Cell4 ℝ)
    (pReconstructionLeft pReconstructionRight : Rec8 ℝ)
    (ucDirection : ℕ) : Rec8 ℝ × Rec8 ℝ × ℕ :=
  if ucDirection = DOMAIN_DIR_N then
    let ucStop : ℕ :=
      if pReconstructionLeft.S1 ≤ (VERY_SMALL : ℝ) ∧ 0 < pStateLeft.w
      then 1 else 0
    let c2 := pReconstructionRight.S1 ≤ (VERY_SMALL : ℝ) ∧
      pReconstructionLeft.S5 < 0
    let ucStop := ucStop + (if c2 then 1 else 0)
    let pReconstructionLeft :=
      if c2 then { pReconstructionLeft with S5 := 0 }
      else pReconstructionLeft
    let c3 := pReconstructionLeft.S1 ≤ (VERY_SMALL : ℝ) ∧
      0 < pReconstructionRight.S5
    let ucStop := ucStop + (if c3 then 1 else 0)
    let pReconstructionRight :=
      if c3 then { pReconstructionRight with S5 := 0 }
      else pReconstructionRight
    (pReconstructionLeft, pReconstructionRight, ucStop)
  else if ucDirection = DOMAIN_DIR_S then
    let ucStop : ℕ :=
      if pReconstructionRight.S1 ≤ (VERY_SMALL : ℝ) ∧ pStateRight.w < 0
      then 1 else 0
    let c2 := pReconstructionRight.S1 ≤ (VERY_SMALL : ℝ) ∧
      pReconstructionLeft.S5 < 0
    let ucStop := ucStop + (if c2 then 1 else 0)
    let pReconstructionLeft :=
      if c2 then { pReconstructionLeft with S5 := 0 }
      else pReconstructionLeft
    let c3 := pReconstructionLeft.S1 ≤ (VERY_SMALL : ℝ) ∧
      0 < pReconstructionRight.S5
    let ucStop := ucStop + (if c3 then 1 else 0)
    let pReconstructionRight :=
      if c3 then { pReconstructionRight with S5 := 0 }
      else pReconstructionRight
    (pReconstructionLeft, pReconstructionRight, ucStop)
  else if ucDirection = DOMAIN_DIR_E then
    let ucStop : ℕ :=
      if pReconstructionLeft.S1 ≤ (VERY_SMALL : ℝ) ∧ 0 < pStateLeft.z
      then 1 else 0
    let c2 := pReconstructionRight.S1 ≤ (VERY_SMALL : ℝ) ∧
      pReconstructionLeft.S4 < 0
    let ucStop := ucStop + (if c2 then 1 else 0)
    let pReconstructionLeft :=
      if c2 then { pReconstructionLeft with S4 := 0 }
      else pReconstructionLeft
    let c3 := pReconstructionLeft.S1 ≤ (VERY_SMALL : ℝ) ∧
      0 < pReconstructionRight.S4
    let ucStop := ucStop + (if c3 then 1 else 0)
    let pReconstructionRight :=
      if c3 then { pReconstructionRight with S4 := 0 }
      else pReconstructionRight
    (pReconstructionLeft, pReconstructionRight, ucStop)
  else if ucDirection = DOMAIN_DIR_W then
    let ucStop : ℕ :=
      if pReconstructionRight.S1 ≤ (VERY_SMALL : ℝ) ∧ pStateRight.z < 0
      then 1 else 0
    let c2 := pReconstructionRight.S1 ≤ (VERY_SMALL : ℝ) ∧
      pReconstructionLeft.S4 < 0
    let ucStop := ucStop + (if c2 then 1 else 0)
    let pReconstructionLeft :=
      if c2 then { pReconstructionLeft with S4 := 0 }
      else pReconstructionLeft
    let c3 := pReconstructionLeft.S1 ≤ (VERY_SMALL : ℝ) ∧
      0 < pReconstructionRight.S4
    let ucStop := ucStop + (if c3 then 1 else 0)
    let pReconstructionRight :=
      if c3 then { pReconstructionRight with S4 := 0 }
      else pReconstructionRight
    (pReconstructionLeft, pReconstructionRight, ucStop)
  else (pReconstructionLeft, pReconstructionRight, 0)

/-- The `reconstructInterface` function: build the raw records, compute the
maximum bed and vertical shift, apply the non-negative depth adjustment,
run the stopping-condition switch, and apply the vertical shift to bed and
free-surface of both sides.  Returns (left record, right record, stop
count). -/
noncomputable def reconstructInterface (pStateLeft : Cell4 ℝ)
    (dBedLeft : ℝ) (pStateRight : Cell4 ℝ) (dBedRight : ℝ)
    (ucDirection : ℕ) : Rec8 ℝ × Rec8 ℝ × ℕ :=
  let dDepthL := pStateLeft.x - dBedLeft
  let dDepthR := pStateRight.x - dBedRight
  let pReconstructionLeft : Rec8 ℝ :=
    ⟨pStateLeft.x, dDepthL, pStateLeft.z, pStateLeft.w,
      if dDepthL < (VERY_SMALL : ℝ) then 0 else pStateLeft.z / dDepthL,
      if dDepthL < (VERY_SMALL : ℝ) then 0 else pStateLeft.w / dDepthL,
      dBedLeft, 0⟩
  let pReconstructionRight : Rec8 ℝ :=
    ⟨pStateRight.x, dDepthR, pStateRight.z, pStateRight.w,
      if dDepthR < (VERY_SMALL : ℝ) then 0 else pStateRight.z / dDepthR,
      if dDepthR < (VERY_SMALL : ℝ) then 0 else pStateRight.w / dDepthR,
      dBedRight, 0⟩
  let dBedMaximum :=
    if pReconstructionRight.S6 < pReconstructionLeft.S6
    then pReconstructionLeft.S6 else pReconstructionRight.S6
  let dShiftV := dBedMaximum -
    (if ucDirection < DOMAIN_DIR_S then pStateLeft.x else pStateRight.x)
  let dShiftV := max dShiftV 0
  let pReconstructionLeft :=
    { pReconstructionLeft with S1 := max (pStateLeft.x - dBedMaximum) 0 }
  let pReconstructionLeft :=
    { pReconstructionLeft with
        S0 := pReconstructionLeft.S1 + dBedMaximum }
  let pReconstructionLeft :=
    { pReconstructionLeft with
        S2 := pReconstructionLeft.S1 * pReconstructionLeft.S4 }
  let pReconstructionLeft :=
    { pReconstructionLeft with
        S3 := pReconstructionLeft.S1 * pReconstructionLeft.S5 }
  let pReconstructionRight :=
    { pReconstructionRight with S1 := max (pStateRight.x - dBedMaximum) 0 }
  let pReconstructionRight :=
    { pReconstructionRight with
        S0 := pReconstructionRight.S1 + dBedMaximum }
  let pReconstructionRight :=
    { pReconstructionRight with
        S2 := pReconstructionRight.S1 * pReconstructionRight.S4 }
  let pReconstructionRight :=
    { pReconstructionRight with
        S3 := pReconstructionRight.S1 * pReconstructionRight.S5 }
  let sr := reconstruct_stopping pStateLeft pStateRight
    pReconstructionLeft pReconstructionRight ucDirection
  let pReconstructionLeft := sr.1
  let pReconstructionRight := sr.2.1
  let ucStop := sr.2.2
  let pReconstructionLeft :=
    { pReconstructionLeft with S6 := dBedMaximum - dShiftV }
  let pReconstructionRight :=
    { pReconstructionRight with S6 := dBedMaximum - dShiftV }
  let pReconstructionLeft :=
    { pReconstructionLeft with S0 := pReconstructionLeft.S0 - dShiftV }
  let pReconstructionRight :=
    { pReconstructionRight with S0 := pReconstructionRight.S0 - dShiftV }
  (pReconstructionLeft, pReconstructionRight, ucStop)

/-! ## Reconstruction stage lemmas -/

lemma reconstruct_stopping_left_S0 (a b : Cell4 ℝ) (L R : Rec8 ℝ) (d : ℕ) :
    (reconstruct_stopping a b L R d).1.S0 = L.S0 := by
  simp only [reconstruct_stopping]
  split_ifs <;> rfl

lemma reconstruct_stopping_left_S1 (a b : Cell4 ℝ) (L R : Rec8 ℝ) (d : ℕ) :
    (reconstruct_stopping a b L R d).1.S1 = L.S1 := by
  simp only [reconstruct_stopping]
  split_ifs <;> rfl

lemma reconstruct_stopping_left_S2 (a b : Cell4 ℝ) (L R : Rec8 ℝ) (d : ℕ) :
    (reconstruct_stopping a b L R d).1.S2 = L.S2 := by
  simp only [reconstruct_stopping]
  split_ifs <;> rfl

lemma reconstruct_stopping_left_S3 (a b : Cell4 ℝ) (L R : Rec8 ℝ) (d : ℕ) :
    (reconstruct_stopping a b L R d).1.S3 = L.S3 := by
  simp only [reconstruct_stopping]
  split_ifs <;> rfl

lemma reconstruct_stopping_left_S6 (a b : Cell4 ℝ) (L R : Rec8 ℝ) (d : ℕ) :
    (reconstruct_stopping a b L R d).1.S6 = L.S6 := by
  simp only [reconstruct_stopping]
  split_ifs <;> rfl

lemma reconstruct_stopping_right_S0 (a b : Cell4 ℝ) (L R : Rec8 ℝ) (d : ℕ) :
    (reconstruct_stopping a b L R d).2.1.S0 = R.S0 := by
  simp only [reconstruct_stopping]
  split_ifs <;> rfl

lemma reconstruct_stopping_right_S1 (a b : Cell4 ℝ) (L R : Rec8 ℝ) (d : ℕ) :
    (reconstruct_stopping a b L R d).2.1.S1 = R.S1 := by
  simp only [reconstruct_stopping]
  split_ifs <;> rfl

lemma reconstruct_stopping_right_S2 (a b : Cell4 ℝ) (L R : Rec8 ℝ) (d : ℕ) :
    (reconstruct_stopping a b L R d).2.1.S2 = R.S2 := by
  simp only [reconstruct_stopping]
  split_ifs <;> rfl

lemma reconstruct_stopping_right_S3 (a b : Cell4 ℝ) (L R : Rec8 ℝ) (d : ℕ) :
    (reconstruct_stopping a b L R d).2.1.S3 = R.S3 := by
  simp only [reconstruct_stopping]
  split_ifs <;> rfl

lemma reconstruct_stopping_right_S6 (a b : Cell4 ℝ) (L R : Rec8 ℝ) (d : ℕ) :
    (reconstruct_stopping a b L R d).2.1.S6 = R.S6 := by
  simp only [reconstruct_stopping]
  split_ifs <;> rfl

lemma ite_lt_eq_max (a b : ℝ) : (if b < a then a else b) = max a b := by
  split_ifs with h
  · exact (max_eq_left h.le).symm
  · exact (max_eq_right (not_lt.mp h)).symm

/-- C7: the interface reconstruction produces non-negative depths on both
sides, `h = max(η − z_b^*, 0)` with `z_b^*` the maximum bed elevation; the
reconstructed free-surface always equals the reconstructed depth plus the
(shifted) bed, the output bed is the maximum bed minus the vertical shift on
both sides, and the output discharges are the reconstructed depths times the
pre-reconstruction velocities. -/
theorem claim_C7_reconstruct (pStateLeft : Cell4 ℝ) (dBedLeft : ℝ)
    (pStateRight : Cell4 ℝ) (dBedRight : ℝ) (ucDirection : ℕ) :
    0 ≤ (reconstructInterface pStateLeft dBedLeft pStateRight dBedRight
        ucDirection).1.S1 ∧
    0 ≤ (reconstructInterface pStateLeft dBedLeft pStateRight dBedRight
        ucDirection).2.1.S1 ∧
    (reconstructInterface pStateLeft dBedLeft pStateRight dBedRight
        ucDirection).1.S1 =
      max (pStateLeft.x - max dBedLeft dBedRight) 0 ∧
    (reconstructInterface pStateLeft dBedLeft pStateRight dBedRight
        ucDirection).2.1.S1 =
      max (pStateRight.x - max dBedLeft dBedRight) 0 ∧
    (reconstructInterface pStateLeft dBedLeft pStateRight dBedRight
        ucDirection).1.S0 =
      (reconstructInterface pStateLeft dBedLeft pStateRight dBedRight
        ucDirection).1.S1 +
      (reconstructInterface pStateLeft dBedLeft pStateRight dBedRight
        ucDirection).1.S6 ∧
    (reconstructInterface pStateLeft dBedLeft pStateRight dBedRight
        ucDirection).2.1.S0 =
      (reconstructInterface pStateLeft dBedLeft pStateRight dBedRight
        ucDirection).2.1.S1 +
      (reconstructInterface pStateLeft dBedLeft pStateRight dBedRight
        ucDirection).2.1.S6 ∧
    (reconstructInterface pStateLeft dBedLeft pStateRight dBedRight
        ucDirection).1.S6 =
      max dBedLeft dBedRight -
        max (max dBedLeft dBedRight -
          (if ucDirection < DOMAIN_DIR_S then pStateLeft.x
           else pStateRight.x)) 0 ∧
    (reconstructInterface pStateLeft dBedLeft pStateRight dBedRight
        ucDirection).2.1.S6 =
      (reconstructInterface pStateLeft dBedLeft pStateRight dBedRight
        ucDirection).1.S6 ∧
    (reconstructInterface pStateLeft dBedLeft pStateRight dBedRight
        ucDirection).1.S2 =
      (reconstructInterface pStateLeft dBedLeft pStateRight dBedRight
          ucDirection).1.S1 *
        (if pStateLeft.x - dBedLeft < (VERY_SMALL : ℝ) then 0
         else pStateLeft.z / (pStateLeft.x - dBedLeft)) ∧
    (reconstructInterface pStateLeft dBedLeft pStateRight dBedRight
        ucDirection).1.S3 =
      (reconstructInterface pStateLeft dBedLeft pStateRight dBedRight
          ucDirection).1.S1 *
        (if pStateLeft.x - dBedLeft < (VERY_SMALL : ℝ) then 0
         else pStateLeft.w / (pStateLeft.x - dBedLeft)) ∧
    (reconstructInterface pStateLeft dBedLeft pStateRight dBedRight
        ucDirection).2.1.S2 =
      (reconstructInterface pStateLeft dBedLeft pStateRight dBedRight
          ucDirection).2.1.S1 *
        (if pStateRight.x - dBedRight < (VERY_SMALL : ℝ) then 0
         else pStateRight.z / (pStateRight.x - dBedRight)) ∧
    (reconstructInterface pStateLeft dBedLeft pStateRight dBedRight
        ucDirection).2.1.S3 =
      (reconstructInterface pStateLeft dBedLeft pStateRight dBedRight
          ucDirection).2.1.S1 *
        (if pStateRight.x - dBedRight < (VERY_SMALL : ℝ) then 0
         else pStateRight.w / (pStateRight.x - dBedRight)) := by
  simp only [reconstructInterface, reconstruct_stopping_left_S0,
    reconstruct_stopping_left_S1, reconstruct_stopping_left_S2,
    reconstruct_stopping_left_S3, reconstruct_stopping_left_S6,
    reconstruct_stopping_right_S0, reconstruct_stopping_right_S1,
    reconstruct_stopping_right_S2, reconstruct_stopping_right_S3,
    reconstruct_stopping_right_S6, ite_lt_eq_max]
  refine ⟨?_, ?_, ?_, ?_, ?_, ?_, ?_, ?_, ?_, ?_, ?_, ?_⟩ <;>
    first
      | trivial
      | exact le_max_right _ _
      | ring

/-! ## Host-generated domain constants -/

/-- Host-generated per-domain build constants: grid extents, spacings and
the precomputed reciprocal spacings. -/
structure DomainConfig where
  DOMAIN_COLS : ℤ
  DOMAIN_ROWS : ℤ
  DOMAIN_DELTAX : ℚ
  DOMAIN_DELTAY : ℚ
  DOMAIN_DELTAX_R : ℚ
  DOMAIN_DELTAY_R : ℚ
deriving DecidableEq, Repr

/-! ## HLLC approximate Riemann solver (`riemannSolver`, CLSolverHLLC.clc)

The flux 4-tuple `(F_η, F_qx, F_qy, 0)` is represented as a `Cell4 ℝ` with
`x = F_η`, `y = F_qx`, `z = F_qy`, `w = 0`.  The `uint2` direction vector
becomes the pair of reals `(dirX, dirY)`.  Note that the right physical
flux of the source uses `pLeft.S6` for the bed term, reproduced here as
written. -/
/-- The left physical flux of `riemannSolver`, with hydrostatic pressure
minus the linear bed term `2·z_b·η` for well-balancing. -/
noncomputable def hllc_FluxL (dirX dirY : ℝ) (pLeft : Rec8 ℝ)
    (dVelL dDisL : ℝ) : Cell4 ℝ :=
  ⟨dDisL,
    dVelL * pLeft.S2 + dirX * 0.5 * (GRAVITY : ℝ) *
      (pLeft.S0 * pLeft.S0 - 2 * pLeft.S6 * pLeft.S0),
    dVelL * pLeft.S3 + dirY * 0.5 * (GRAVITY : ℝ) *
      (pLeft.S0 * pLeft.S0 - 2 * pLeft.S6 * pLeft.S0),
    0⟩

/-- The right physical flux of `riemannSolver`.  The bed term uses
`pLeft.S6` (not `pRight.S6`), exactly as in the source; it is passed in as
`dBedTermLeftS6`. -/
noncomputable def hllc_FluxR (dirX dirY : ℝ) (dBedTermLeftS6 : ℝ)
    (pRight : Rec8 ℝ) (dVelR dDisR : ℝ) : Cell4 ℝ :=
  ⟨dDisR,
    dVelR * pRight.S2 + dirX * 0.5 * (GRAVITY : ℝ) *
      (pRight.S0 * pRight.S0 - 2 * dBedTermLeftS6 * pRight.S0),
    dVelR * pRight.S3 + dirY * 0.5 * (GRAVITY : ℝ) *
      (pRight.S0 * pRight.S0 - 2 * dBedTermLeftS6 * pRight.S0),
    0⟩

/-- The region selection of `riemannSolver` (booleans `bLeft`,
`bMiddle_1`, `bMiddle_2`, `bRight` of the source, written out): left flux
for `s_L ≥ 0`, right flux when no region matches, and otherwise the two
HLLC middle fluxes with the left or right tangential velocity.  The final
fall-through cannot be reached (not-left and not-right imply middle 1 or
2); the source would return an uninitialised vector there. -/
noncomputable def riemannSolver_region (dirX dirY : ℝ)
    (pLeft pRight : Rec8 ℝ) (dDisL dDisR s_L s_R s_M : ℝ)
    (pFluxL pFluxR : Cell4 ℝ) : Cell4 ℝ :=
  if 0 ≤ s_L then pFluxL
  else if ¬(0 ≤ s_L) ∧ ¬(s_L < 0 ∧ 0 ≤ s_R ∧ 0 ≤ s_M) ∧
      ¬((s_L < 0 ∧ 0 ≤ s_R) ∧ ¬(s_L < 0 ∧ 0 ≤ s_R ∧ 0 ≤ s_M)) then
    pFluxR
  else
    let FM_L := dirX * pFluxL.y + dirY * pFluxL.z
    let FM_R := dirX * pFluxR.y + dirY * pFluxR.z
    let F1_M := (s_R * pFluxL.x - s_L * pFluxR.x +
      s_L * s_R * (pRight.S0 - pLeft.S0)) / (s_R - s_L)
    let F2_M := (s_R * FM_L - s_L * FM_R +
      s_L * s_R * (dDisR - dDisL)) / (s_R - s_L)
    if s_L < 0 ∧ 0 ≤ s_R ∧ 0 ≤ s_M then
      ⟨F1_M, dirX * F2_M + dirY * F1_M * pLeft.S4,
        dirX * F1_M * pLeft.S5 + dirY * F2_M, 0⟩
    else if (s_L < 0 ∧ 0 ≤ s_R) ∧ ¬(s_L < 0 ∧ 0 ≤ s_R ∧ 0 ≤ s_M) then
      ⟨F1_M, dirX * F2_M + dirY * F1_M * pRight.S4,
        dirX * F1_M * pRight.S5 + dirY * F2_M, 0⟩
    else ⟨0, 0, 0, 0⟩

noncomputable def riemannSolver (ucDirection : ℕ) (pLeft pRight : Rec8 ℝ) :
    Cell4 ℝ :=
  let dirX : ℝ :=
    if ucDirection = DOMAIN_DIR_N ∨ ucDirection = DOMAIN_DIR_S then 0 else 1
  let dirY : ℝ :=
    if ucDirection = DOMAIN_DIR_N ∨ ucDirection = DOMAIN_DIR_S then 1 else 0
  if pLeft.S1 < (VERY_SMALL : ℝ) ∧ pRight.S1 < (VERY_SMALL : ℝ) then
    ⟨0,
      dirX * 0.5 * (GRAVITY : ℝ) *
        (((pLeft.S0 + pRight.S0) * 0.5) * ((pLeft.S0 + pRight.S0) * 0.5) -
          pLeft.S6 * (pLeft.S0 + pRight.S0)),
      dirY * 0.5 * (GRAVITY : ℝ) *
        (((pLeft.S0 + pRight.S0) * 0.5) * ((pLeft.S0 + pRight.S0) * 0.5) -
          pLeft.S6 * (pLeft.S0 + pRight.S0)),
      0⟩
  else
    let pLeft := { pLeft with
      S4 := if pLeft.S1 < (VERY_SMALL : ℝ) then 0 else pLeft.S2 / pLeft.S1
      S5 := if pLeft.S1 < (VERY_SMALL : ℝ) then 0 else pLeft.S3 / pLeft.S1 }
    let pRight := { pRight with
      S4 := if pRight.S1 < (VERY_SMALL : ℝ) then 0 else pRight.S2 / pRight.S1
      S5 := if pRight.S1 < (VERY_SMALL : ℝ) then 0 else pRight.S3 / pRight.S1 }
    let dVelL := dirX * pLeft.S4 + dirY * pLeft.S5
    let dVelR := dirX * pRight.S4 + dirY * pRight.S5
    let dDisL := dirX * pLeft.S2 + dirY * pLeft.S3
    let dDisR := dirX * pRight.S2 + dirY * pRight.S3
    let dAL := Real.sqrt ((GRAVITY : ℝ) * pLeft.S1)
    let dAR := Real.sqrt ((GRAVITY : ℝ) * pRight.S1)
    let a_Avg := (dAL + dAR) * 0.5
    let H_star := ((a_Avg + (dVelL - dVelR) * 0.25) *
      (a_Avg + (dVelL - dVelR) * 0.25)) * (GRAVITY_R : ℝ)
    let U_star := (dVelL + dVelR) * 0.5 + dAL - dAR
    let A_star := Real.sqrt ((GRAVITY : ℝ) * H_star)
    let s_L :=
      if pLeft.S1 < (VERY_SMALL : ℝ) then dVelR - 2 * dAR
      else (if U_star - A_star < dVelL - dAL then U_star - A_star
            else dVelL - dAL)
    let s_R :=
      if pRight.S1 < (VERY_SMALL : ℝ) then dVelL + 2 * dAL
      else (if dVelR + dAR < U_star + A_star then U_star + A_star
            else dVelR + dAR)
    let s_M := (s_L * pRight.S1 * (dVelR - s_R) -
        s_R * pLeft.S1 * (dVelL - s_L)) /
      (pRight.S1 * (dVelR - s_R) - pLeft.S1 * (dVelL - s_L))
    let pFluxL : Cell4 ℝ := hllc_FluxL dirX dirY pLeft dVelL dDisL
    let pFluxR : Cell4 ℝ :=
      hllc_FluxR dirX dirY pLeft.S6 pRight dVelR dDisR
    riemannSolver_region dirX dirY pLeft pRight dDisL dDisR s_L s_R s_M
      pFluxL pFluxR

/-! ## Godunov scheme kernel (`gts_cacheDisabled`) -/

/-- The per-cell computation of `gts_cacheDisabled` after all guards have
passed: four interface reconstructions and HLLC fluxes (reconstructed
neighbour level and bed replace the loaded ones for the source terms), bed
slope source terms, flux divergence with small-delta rounding, flow arrest
on a positive stopping count, the explicit update, optional in-kernel
friction, the low-depth clamp and the running-maximum update. -/
noncomputable def gts_computeCell (cfg : DomainConfig)
    (frictionInKernel : Bool) (dLclTimestep dCellBedElev : ℝ)
    (pCellData : Cell4 ℝ) (dManningCoef : ℝ)
    (pNeigDataN : Cell4 ℝ) (dNeigBedElevN : ℝ)
    (pNeigDataE : Cell4 ℝ) (dNeigBedElevE : ℝ)
    (pNeigDataS : Cell4 ℝ) (dNeigBedElevS : ℝ)
    (pNeigDataW : Cell4 ℝ) (dNeigBedElevW : ℝ) : Cell4 ℝ :=
  let rN := reconstructInterface pCellData dCellBedElev
    pNeigDataN dNeigBedElevN DOMAIN_DIR_N
  let ucStop : ℕ := rN.2.2
  let pNeigDataN := { pNeigDataN with x := rN.2.1.S0 }
  let dNeigBedElevN := rN.2.1.S6
  let pFluxN := riemannSolver DOMAIN_DIR_N rN.1 rN.2.1
  let rS := reconstructInterface pNeigDataS dNeigBedElevS
    pCellData dCellBedElev DOMAIN_DIR_S
  let ucStop := ucStop + rS.2.2
  let pNeigDataS := { pNeigDataS with x := rS.1.S0 }
  let dNeigBedElevS := rS.1.S6
  let pFluxS := riemannSolver DOMAIN_DIR_S rS.1 rS.2.1
  let rE := reconstructInterface pCellData dCellBedElev
    pNeigDataE dNeigBedElevE DOMAIN_DIR_E
  let ucStop := ucStop + rE.2.2
  let pNeigDataE := { pNeigDataE with x := rE.2.1.S0 }
  let dNeigBedElevE := rE.2.1.S6
  let pFluxE := riemannSolver DOMAIN_DIR_E rE.1 rE.2.1
  let rW := reconstructInterface pNeigDataW dNeigBedElevW
    pCellData dCellBedElev DOMAIN_DIR_W
  let ucStop := ucStop + rW.2.2
  let pNeigDataW := { pNeigDataW with x := rW.1.S0 }
  let dNeigBedElevW := rW.1.S6
  let pFluxW := riemannSolver DOMAIN_DIR_W rW.1 rW.2.1
  let pSourceTermsX : ℝ := 0
  let pSourceTermsY := -1 * (GRAVITY : ℝ) *
    ((pNeigDataE.x + pNeigDataW.x) * 0.5) *
    ((dNeigBedElevE - dNeigBedElevW) * (cfg.DOMAIN_DELTAX_R : ℝ))
  let pSourceTermsZ := -1 * (GRAVITY : ℝ) *
    ((pNeigDataN.x + pNeigDataS.x) * 0.5) *
    ((dNeigBedElevN - dNeigBedElevS) * (cfg.DOMAIN_DELTAY_R : ℝ))
  let dDeltaX := (pFluxE.x - pFluxW.x) * (cfg.DOMAIN_DELTAX_R : ℝ) +
    (pFluxN.x - pFluxS.x) * (cfg.DOMAIN_DELTAY_R : ℝ) - pSourceTermsX
  let dDeltaZ := (pFluxE.y - pFluxW.y) * (cfg.DOMAIN_DELTAX_R : ℝ) +
    (pFluxN.y - pFluxS.y) * (cfg.DOMAIN_DELTAY_R : ℝ) - pSourceTermsY
  let dDeltaW := (pFluxE.z - pFluxW.z) * (cfg.DOMAIN_DELTAX_R : ℝ) +
    (pFluxN.z - pFluxS.z) * (cfg.DOMAIN_DELTAY_R : ℝ) - pSourceTermsZ
  let dDeltaX := if |dDeltaX| < (VERY_SMALL : ℝ) then 0 else dDeltaX
  let dDeltaZ := if |dDeltaZ| < (VERY_SMALL : ℝ) then 0 else dDeltaZ
  let dDeltaW := if |dDeltaW| < (VERY_SMALL : ℝ) then 0 else dDeltaW
  let pCellData :=
    if 0 < ucStop then { pCellData with z := 0, w := 0 } else pCellData
  let pCellData := { pCellData with
    x := pCellData.x - dDeltaX * dLclTimestep
    z := pCellData.z - dDeltaZ * dLclTimestep
    w := pCellData.w - dDeltaW * dLclTimestep }
  let dDepth := pCellData.x - dCellBedElev
  let pCellData :=
    if frictionInKernel ∧ (VERY_SMALL : ℝ) ≤ dDepth then
      implicitFriction pCellData dCellBedElev dDepth dManningCoef
        dLclTimestep
    else pCellData
  let pCellData :=
    if dDepth < (VERY_SMALL : ℝ) then { pCellData with x := dCellBedElev }
    else pCellData
  let pCellData :=
    if pCellData.y < pCellData.x ∧ -9990 < pCellData.y then
      { pCellData with y := pCellData.x }
    else pCellData
  pCellData

/-- The `gts_cacheDisabled` kernel for the work-item of cell `(i, j)`:
`none` means the kernel returns without writing the destination buffer
(perimeter cells and the all-dry early exit); `some v` means it writes `v`
to the destination at the cell index.  A non-positive timestep copies the
source cell through; a disabled cell is copied through. -/
noncomputable def gts_cacheDisabled (cfg : DomainConfig)
    (frictionInKernel : Bool) (dTimestep : ℝ) (dBedElevation : ℕ → ℝ)
    (pCellStateSrc : ℕ → Cell4 ℝ) (dManning : ℕ → ℝ)
    (lIdxX lIdxY : ℤ) : Option (Cell4 ℝ) :=
  let ulIdx := getCellID cfg.DOMAIN_COLS lIdxX lIdxY
  if cfg.DOMAIN_COLS - 1 ≤ lIdxX ∨ cfg.DOMAIN_ROWS - 1 ≤ lIdxY ∨
      lIdxX ≤ 0 ∨ lIdxY ≤ 0 then none
  else if dTimestep ≤ 0 then some (pCellStateSrc ulIdx)
  else
    let dCellBedElev := dBedElevation ulIdx
    let pCellData := pCellStateSrc ulIdx
    let dManningCoef := dManning ulIdx
    if cellDisabled pCellData then some pCellData
    else
      let ulIdxNeigW := getNeighbourByIndices cfg.DOMAIN_COLS lIdxX lIdxY
        DOMAIN_DIR_W
      let dNeigBedElevW := dBedElevation ulIdxNeigW
      let pNeigDataW := pCellStateSrc ulIdxNeigW
      let ulIdxNeigS := getNeighbourByIndices cfg.DOMAIN_COLS lIdxX lIdxY
        DOMAIN_DIR_S
      let dNeigBedElevS := dBedElevation ulIdxNeigS
      let pNeigDataS := pCellStateSrc ulIdxNeigS
      let ulIdxNeigN := getNeighbourByIndices cfg.DOMAIN_COLS lIdxX lIdxY
        DOMAIN_DIR_N
      let dNeigBedElevN := dBedElevation ulIdxNeigN
      let pNeigDataN := pCellStateSrc ulIdxNeigN
      let ulIdxNeigE := getNeighbourByIndices cfg.DOMAIN_COLS lIdxX lIdxY
        DOMAIN_DIR_E
      let dNeigBedElevE := dBedElevation ulIdxNeigE
      let pNeigDataE := pCellStateSrc ulIdxNeigE
      let ucDryCount : ℕ :=
        (if pCellData.x - dCellBedElev < (VERY_SMALL : ℝ) then 1 else 0) +
        (if pNeigDataN.x - dNeigBedElevN < (VERY_SMALL : ℝ) then 1 else 0) +
        (if pNeigDataE.x - dNeigBedElevE < (VERY_SMALL : ℝ) then 1 else 0) +
        (if pNeigDataS.x - dNeigBedElevS < (VERY_SMALL : ℝ) then 1 else 0) +
        (if pNeigDataW.x - dNeigBedElevW < (VERY_SMALL : ℝ) then 1 else 0)
      if 5 ≤ ucDryCount then none
      else some (gts_computeCell cfg frictionInKernel dTimestep
        dCellBedElev pCellData dManningCoef
        pNeigDataN dNeigBedElevN pNeigDataE dNeigBedElevE
        pNeigDataS dNeigBedElevS pNeigDataW dNeigBedElevW)

/-! ## Simplified inertial scheme (`calculateInertialFlux`,
`ine_cacheDisabled`) -/

/-- The `calculateInertialFlux` function: inertial discharge update with
Manning drag denominator, Froude-number limiter and dry cut-off. -/
noncomputable def calculateInertialFlux (cfg : DomainConfig)
    (FROUDE_LIMIT : ℝ) (dManningCoef dTimestep dPreviousDischarge
      dLevelUpstream dBedUpstream dLevelDownstream dBedDownstream : ℝ) :
    ℝ :=
  let dDepth := max dLevelDownstream dLevelUpstream -
    max dBedUpstream dBedDownstream
  let dSlope := (dLevelDownstream - dLevelUpstream) *
    (cfg.DOMAIN_DELTAX_R : ℝ)
  let dDischarge := (dPreviousDischarge -
      (GRAVITY : ℝ) * dDepth * dTimestep * dSlope) /
    (1 + (GRAVITY : ℝ) * dDepth * dTimestep * dManningCoef * dManningCoef *
      |dPreviousDischarge| / dDepth ^ ((10 : ℝ) / 3))
  let dDischarge :=
    if 0 < dDischarge ∧
        FROUDE_LIMIT < (|dDischarge| / dDepth) /
          Real.sqrt ((GRAVITY : ℝ) * dDepth) then
      dDepth * Real.sqrt ((GRAVITY : ℝ) * dDepth) * FROUDE_LIMIT
    else dDischarge
  let dDischarge :=
    if dDischarge < 0 ∧
        FROUDE_LIMIT < (|dDischarge| / dDepth) /
          Real.sqrt ((GRAVITY : ℝ) * dDepth) then
      0 - dDepth * Real.sqrt ((GRAVITY : ℝ) * dDepth) * FROUDE_LIMIT
    else dDischarge
  if dDepth < (VERY_SMALL : ℝ) then 0 else dDischarge

/-- The per-cell computation of `ine_cacheDisabled` after all guards: four
inertial fluxes, the west and south ones becoming the new cell discharges,
the continuity update (using only `Δy⁻¹`, assuming square cells), the
running-maximum update and the low-depth clamp, in source order. -/
noncomputable def ine_computeCell (cfg : DomainConfig) (FROUDE_LIMIT : ℝ)
    (dLclTimestep dCellBedElev : ℝ) (pCellData : Cell4 ℝ)
    (dManningCoef : ℝ)
    (pNeigDataN : Cell4 ℝ) (dNeigBedElevN : ℝ)
    (pNeigDataE : Cell4 ℝ) (dNeigBedElevE : ℝ)
    (pNeigDataS : Cell4 ℝ) (dNeigBedElevS : ℝ)
    (pNeigDataW : Cell4 ℝ) (dNeigBedElevW : ℝ) : Cell4 ℝ :=
  let dDischargeN := calculateInertialFlux cfg FROUDE_LIMIT dManningCoef
    dLclTimestep pNeigDataN.w pNeigDataN.x dNeigBedElevN
    pCellData.x dCellBedElev
  let dDischargeE := calculateInertialFlux cfg FROUDE_LIMIT dManningCoef
    dLclTimestep pNeigDataE.z pNeigDataE.x dNeigBedElevE
    pCellData.x dCellBedElev
  let dDischargeS := calculateInertialFlux cfg FROUDE_LIMIT dManningCoef
    dLclTimestep pCellData.w pCellData.x dCellBedElev
    pNeigDataS.x dNeigBedElevS
  let dDischargeW := calculateInertialFlux cfg FROUDE_LIMIT dManningCoef
    dLclTimestep pCellData.z pCellData.x dCellBedElev
    pNeigDataW.x dNeigBedElevW
  let pCellData := { pCellData with z := dDischargeW, w := dDischargeS }
  let dDeltaFSL := (dDischargeE - dDischargeW +
    dDischargeN - dDischargeS) * (cfg.DOMAIN_DELTAY_R : ℝ)
  let pCellData := { pCellData with
    x := pCellData.x + dLclTimestep * dDeltaFSL }
  let pCellData :=
    if pCellData.y < pCellData.x then { pCellData with y := pCellData.x }
    else pCellData
  let pCellData :=
    if pCellData.x - dCellBedElev < (VERY_SMALL : ℝ) then
      { pCellData with x := dCellBedElev }
    else pCellData
  pCellData

/-- The `ine_cacheDisabled` kernel for the work-item of cell `(i, j)`:
`none` means no write (perimeter, non-positive timestep, all-dry exit);
a disabled cell is copied through. -/
noncomputable def ine_cacheDisabled (cfg : DomainConfig)
    (FROUDE_LIMIT : ℝ) (dTimestep : ℝ) (dBedElevation : ℕ → ℝ)
    (pCellStateSrc : ℕ → Cell4 ℝ) (dManning : ℕ → ℝ)
    (lIdxX lIdxY : ℤ) : Option (Cell4 ℝ) :=
  let ulIdx := getCellID cfg.DOMAIN_COLS lIdxX lIdxY
  if cfg.DOMAIN_COLS - 1 ≤ lIdxX ∨ cfg.DOMAIN_ROWS - 1 ≤ lIdxY ∨
      lIdxX ≤ 0 ∨ lIdxY ≤ 0 then none
  else if dTimestep ≤ 0 then none
  else
    let dCellBedElev := dBedElevation ulIdx
    let pCellData := pCellStateSrc ulIdx
    let dManningCoef := dManning ulIdx
    if cellDisabled pCellData then some pCellData
    else
      let ulIdxNeigW := getNeighbourByIndices cfg.DOMAIN_COLS lIdxX lIdxY
        DOMAIN_DIR_W
      let dNeigBedElevW := dBedElevation ulIdxNeigW
      let pNeigDataW := pCellStateSrc ulIdxNeigW
      let ulIdxNeigS := getNeighbourByIndices cfg.DOMAIN_COLS lIdxX lIdxY
        DOMAIN_DIR_S
      let dNeigBedElevS := dBedElevation ulIdxNeigS
      let pNeigDataS := pCellStateSrc ulIdxNeigS
      let ulIdxNeigN := getNeighbourByIndices cfg.DOMAIN_COLS lIdxX lIdxY
        DOMAIN_DIR_N
      let dNeigBedElevN := dBedElevation ulIdxNeigN
      let pNeigDataN := pCellStateSrc ulIdxNeigN
      let ulIdxNeigE := getNeighbourByIndices cfg.DOMAIN_COLS lIdxX lIdxY
        DOMAIN_DIR_E
      let dNeigBedElevE := dBedElevation ulIdxNeigE
      let pNeigDataE := pCellStateSrc ulIdxNeigE
      let ucDryCount : ℕ :=
        (if pCellData.x - dCellBedElev < (VERY_SMALL : ℝ) then 1 else 0) +
        (if pNeigDataN.x - dNeigBedElevN < (VERY_SMALL : ℝ) then 1 else 0) +
        (if pNeigDataE.x - dNeigBedElevE < (VERY_SMALL : ℝ) then 1 else 0) +
        (if pNeigDataS.x - dNeigBedElevS < (VERY_SMALL : ℝ) then 1 else 0) +
        (if pNeigDataW.x - dNeigBedElevW < (VERY_SMALL : ℝ) then 1 else 0)
      if 5 ≤ ucDryCount then none
      else some (ine_computeCell cfg FROUDE_LIMIT dTimestep
        dCellBedElev pCellData dManningCoef
        pNeigDataN dNeigBedElevN pNeigDataE dNeigBedElevE
        pNeigDataS dNeigBedElevS pNeigDataW dNeigBedElevW)

/-! ## Boundary kernels (CLBoundaries.clc)

`bdy_Uniform`, `bdy_Gridded` and `bdy_StreamingGridded` use only field
operations, comparisons and `floor`, and are modelled over `ℚ`; `bdy_Cell`
needs `pow(·, 1/3)` for the critical depth and is modelled over `ℝ`.  The
in-place kernels are modelled as the final value of the targeted cell: an
early return leaves the cell at its loaded value. -/

def BOUNDARY_DEPTH_IGNORE : ℕ := 0

def BOUNDARY_DEPTH_IS_FSL : ℕ := 1

def BOUNDARY_DEPTH_IS_DEPTH : ℕ := 2

def BOUNDARY_DEPTH_IS_CRITICAL : ℕ := 3

def BOUNDARY_DISCHARGE_IGNORE : ℕ := 0

def BOUNDARY_DISCHARGE_IS_DISCHARGE : ℕ := 1

def BOUNDARY_DISCHARGE_IS_VELOCITY : ℕ := 2

def BOUNDARY_DISCHARGE_IS_VOLUME : ℕ := 3

def BOUNDARY_UNIFORM_RAIN_INTENSITY : ℕ := 0

def BOUNDARY_UNIFORM_LOSS_RATE : ℕ := 1

def BOUNDARY_GRIDDED_RAIN_INTENSITY : ℕ := 0

def BOUNDARY_GRIDDED_RAIN_ACCUMUL : ℕ := 1

def BOUNDARY_GRIDDED_MASS_FLUX : ℕ := 2

structure sBdyCellConfiguration where
  TimeseriesEntries : ℕ
  TimeseriesInterval : ℝ
  TimeseriesLength : ℝ
  RelationCount : ℕ
  DefinitionDepth : ℕ
  DefinitionDischarge : ℕ

structure sBdyGriddedConfiguration where
  TimeseriesInterval : ℚ
  GridResolution : ℚ
  GridOffsetX : ℚ
  GridOffsetY : ℚ
  TimeseriesEntries : ℕ
  Definition : ℕ
  GridRows : ℕ
  GridCols : ℕ
deriving DecidableEq, Repr

structure sBdyUniformConfiguration where
  TimeseriesEntries : ℕ
  TimeseriesInterval : ℚ
  TimeseriesLength : ℚ
  Definition : ℕ
deriving DecidableEq, Repr

/-- The C99 `fmod`: remainder with quotient truncated towards zero. -/
noncomputable def cfmod (x y : ℝ) : ℝ :=
  x - y * (if 0 ≤ x / y then ((⌊x / y⌋ : ℤ) : ℝ) else ((⌈x / y⌉ : ℤ) : ℝ))

/-- The `bdy_Cell` kernel for the work-item of relation `lRelationID`:
interpolate the two bracketing timeseries entries at the current time,
apply the depth mode (fixed depth, fixed level, or a computed
depth/critical-depth increment), apply the discharge mode, and write the
cell.  `none` models the guard return; `some (id, v)` models the write of
`v` to cell `id`.  There is no disabled-cell guard in this kernel. -/
noncomputable def bdy_Cell (cfg : DomainConfig)
    (pConfiguration : sBdyCellConfiguration) (pRelations : ℕ → ℕ)
    (pTimeseries : ℕ → Cell4 ℝ) (pTime pTimestep : ℝ)
    (pCellState : ℕ → Cell4 ℝ) (pCellBed : ℕ → ℝ)
    (lRelationID : ℕ) : Option (ℕ × Cell4 ℝ) :=
  if pConfiguration.RelationCount ≤ lRelationID ∨
      pConfiguration.TimeseriesLength ≤ pTime ∨ pTimestep ≤ 0 then none
  else
    let ulBaseTimestep :=
      (⌊pTime / pConfiguration.TimeseriesInterval⌋).toNat
    let ulNextTimestep := ulBaseTimestep + 1
    let ulCellID := pRelations lRelationID
    let pCellData := pCellState ulCellID
    let dCellBed := pCellBed ulCellID
    let pTSBase := pTimeseries ulBaseTimestep
    let pTSNext := pTimeseries ulNextTimestep
    let r := cfmod pTime pConfiguration.TimeseriesInterval /
      pConfiguration.TimeseriesInterval
    let pTSInterp : Cell4 ℝ :=
      ⟨pTSBase.x + (pTSNext.x - pTSBase.x) * r,
        pTSBase.y + (pTSNext.y - pTSBase.y) * r,
        pTSBase.z + (pTSNext.z - pTSBase.z) * r,
        pTSBase.w + (pTSNext.w - pTSBase.w) * r⟩
    let depthApplied :=
      if pConfiguration.DefinitionDepth = BOUNDARY_DEPTH_IS_DEPTH then
        ({ pCellData with x := dCellBed + pTSInterp.y }, pTSInterp)
      else if pConfiguration.DefinitionDepth = BOUNDARY_DEPTH_IS_FSL then
        ({ pCellData with x := max dCellBed pTSInterp.y }, pTSInterp)
      else
        if (VERY_SMALL : ℝ) < |pTSInterp.z| ∨
            (VERY_SMALL : ℝ) < |pTSInterp.w| ∨
            pConfiguration.DefinitionDischarge =
              BOUNDARY_DISCHARGE_IS_VOLUME then
          let dDepth := (|pTSInterp.z| * pTimestep) *
              (cfg.DOMAIN_DELTAY_R : ℝ) +
            (|pTSInterp.w| * pTimestep) * (cfg.DOMAIN_DELTAX_R : ℝ)
          let dNormalDepth := max (pTSInterp.z ^ 2 * (GRAVITY_R : ℝ))
            (pTSInterp.w ^ 2 * (GRAVITY_R : ℝ))
          let dCriticalDepth :=
            max ((pTSInterp.z ^ 2 * (GRAVITY_R : ℝ)) ^ ((1 : ℝ) / 3))
              ((pTSInterp.w ^ 2 * (GRAVITY_R : ℝ)) ^ ((1 : ℝ) / 3))
          if pConfiguration.DefinitionDischarge =
              BOUNDARY_DISCHARGE_IS_VOLUME then
            let dNormalDepth := (0 : ℝ)
            let dDepth :=
              if pTSInterp.z < 0 then
                -((|pTSInterp.z| * pTimestep) /
                  ((cfg.DOMAIN_DELTAX : ℝ) * (cfg.DOMAIN_DELTAY : ℝ)))
              else
                (|pTSInterp.z| * pTimestep) /
                  ((cfg.DOMAIN_DELTAX : ℝ) * (cfg.DOMAIN_DELTAY : ℝ))
            let dCriticalDepth := (0 : ℝ)
            let pTSInterp := { pTSInterp with z := 0, w := 0 }
            ({ pCellData with
                x := max (dCellBed + dCriticalDepth)
                  (pCellData.x + dDepth) }, pTSInterp)
          else
            ({ pCellData with
                x := max (dCellBed + dCriticalDepth)
                  (pCellData.x + dDepth) }, pTSInterp)
        else (pCellData, pTSInterp)
    let pCellData := depthApplied.1
    let pTSInterp := depthApplied.2
    let pCellData :=
      if pConfiguration.DefinitionDischarge =
          BOUNDARY_DISCHARGE_IS_DISCHARGE then
        { pCellData with z := pTSInterp.z }
      else if pConfiguration.DefinitionDischarge =
          BOUNDARY_DISCHARGE_IS_VELOCITY then
        { pCellData with z := pTSInterp.z * (pCellData.x - dCellBed) }
      else pCellData
    let pCellData :=
      if pConfiguration.DefinitionDischarge =
          BOUNDARY_DISCHARGE_IS_DISCHARGE then
        { pCellData with w := pTSInterp.w }
      else if pConfiguration.DefinitionDischarge =
          BOUNDARY_DISCHARGE_IS_VELOCITY then
        { pCellData with w := pTSInterp.w * (pCellData.x - dCellBed) }
      else pCellData
    some (ulCellID, pCellData)

/-- The `bdy_Uniform` kernel at cell `(i, j)`: returns the final value of
the cell.  The kernel checks the real timestep, the hydrological sub-clock
and only the `η_max` sentinel (not `η = -9999`). -/
def bdy_Uniform (cfg : DomainConfig)
    (pConfiguration : sBdyUniformConfiguration)
    (pTimeseries : ℕ → ℚ × ℚ) (pTime pTimestep pTimeHydrological : ℚ)
    (pCellState : ℕ → Cell4 ℚ) (pCellBed : ℕ → ℚ)
    (lIdxX lIdxY : ℤ) : Cell4 ℚ :=
  let ulIdx := getCellID cfg.DOMAIN_COLS lIdxX lIdxY
  let pCellData := pCellState ulIdx
  if cfg.DOMAIN_COLS - 1 ≤ lIdxX ∨ cfg.DOMAIN_ROWS - 1 ≤ lIdxY ∨
      lIdxX ≤ 0 ∨ lIdxY ≤ 0 then pCellData
  else
    let dCellBedElev := pCellBed ulIdx
    let dLclTime := pTime
    let dLclRealTimestep := pTimestep
    let dLclTimestep := pTimeHydrological
    if dLclTimestep < TIMESTEP_HYDROLOGICAL ∨ dLclRealTimestep ≤ 0 then
      pCellData
    else if pConfiguration.TimeseriesLength ≤ dLclTime ∨
        pCellData.y ≤ -9999 then pCellData
    else
      let ulTimestep :=
        (⌊dLclTime / pConfiguration.TimeseriesInterval⌋).toNat
      let dRecord := pTimeseries ulTimestep
      let pCellData :=
        if pConfiguration.Definition = BOUNDARY_UNIFORM_RAIN_INTENSITY then
          { pCellData with
              x := pCellData.x + dRecord.2 / 3600000 * dLclTimestep }
        else pCellData
      let pCellData :=
        if pConfiguration.Definition = BOUNDARY_UNIFORM_LOSS_RATE then
          { pCellData with
              x := max dCellBedElev
                (pCellData.x - dRecord.2 / 3600000 * dLclTimestep) }
        else pCellData
      pCellData

/-- The resident-timeseries linear buffer index of `bdy_Gridded`: clamped
timestep slab index times the slab size, plus the in-grid offset.  The
clamp is `if (ulTimestep >= TimeseriesEntries) ulTimestep =
TimeseriesEntries` of the source, reproduced as written. -/
def bdy_Gridded_bufferIndex (cfg : DomainConfig)
    (pConfiguration : sBdyGriddedConfiguration) (dLclTime : ℚ)
    (lIdxX lIdxY : ℤ) : ℕ :=
  let ulTimestep :=
    (⌊dLclTime / pConfiguration.TimeseriesInterval⌋).toNat
  let ulTimestep :=
    if pConfiguration.TimeseriesEntries ≤ ulTimestep then
      pConfiguration.TimeseriesEntries
    else ulTimestep
  let ulColumn := ⌊((lIdxX : ℚ) * cfg.DOMAIN_DELTAX -
    pConfiguration.GridOffsetX) / pConfiguration.GridResolution⌋
  let ulRow := ⌊((lIdxY : ℚ) * cfg.DOMAIN_DELTAY -
    pConfiguration.GridOffsetY) / pConfiguration.GridResolution⌋
  (pConfiguration.GridRows * pConfiguration.GridCols) * ulTimestep +
    (pConfiguration.GridCols * ulRow.toNat) + ulColumn.toNat

/-- The `bdy_Gridded` kernel at cell `(i, j)`: returns the final value of
the cell.  Note that the kernel reads the hydrological sub-clock but never
checks the real timestep `pTimestep`. -/
def bdy_Gridded (cfg : DomainConfig)
    (pConfiguration : sBdyGriddedConfiguration) (pTimeseries : ℕ → ℚ)
    (pTime pTimestep pTimeHydrological : ℚ) (pCellState : ℕ → Cell4 ℚ)
    (pCellBed : ℕ → ℚ) (lIdxX lIdxY : ℤ) : Cell4 ℚ :=
  let ulIdx := getCellID cfg.DOMAIN_COLS lIdxX lIdxY
  let pCellData := pCellState ulIdx
  if cfg.DOMAIN_COLS - 1 ≤ lIdxX ∨ cfg.DOMAIN_ROWS - 1 ≤ lIdxY ∨
      lIdxX ≤ 0 ∨ lIdxY ≤ 0 then pCellData
  else
    let dLclTime := pTime
    let dLclTimestep := pTimeHydrological
    if cellDisabled pCellData then pCellData
    else if dLclTimestep < TIMESTEP_HYDROLOGICAL then pCellData
    else
      let ulBdyCell := bdy_Gridded_bufferIndex cfg pConfiguration
        dLclTime lIdxX lIdxY
      let dRate := pTimeseries ulBdyCell
      let pCellData :=
        if pConfiguration.Definition = BOUNDARY_GRIDDED_RAIN_INTENSITY then
          { pCellData with
              x := pCellData.x + dRate / 3600000 * dLclTimestep }
        else pCellData
      let pCellData :=
        if pConfiguration.Definition = BOUNDARY_GRIDDED_MASS_FLUX then
          { pCellData with
              x := pCellData.x + dRate /
                (cfg.DOMAIN_DELTAX * cfg.DOMAIN_DELTAY) * dLclTimestep }
        else pCellData
      pCellData

/-- The `bdy_StreamingGridded` kernel at cell `(i, j)`: like `bdy_Gridded`
but reading a single resident grid with no time index. -/
def bdy_StreamingGridded (cfg : DomainConfig)
    (pConfiguration : sBdyGriddedConfiguration) (pValues : ℕ → ℚ)
    (pTime pTimestep pTimeHydrological : ℚ) (pCellState : ℕ → Cell4 ℚ)
    (pCellBed : ℕ → ℚ) (lIdxX lIdxY : ℤ) : Cell4 ℚ :=
  let ulIdx := getCellID cfg.DOMAIN_COLS lIdxX lIdxY
  let pCellData := pCellState ulIdx
  if cfg.DOMAIN_COLS - 1 ≤ lIdxX ∨ cfg.DOMAIN_ROWS - 1 ≤ lIdxY ∨
      lIdxX ≤ 0 ∨ lIdxY ≤ 0 then pCellData
  else
    let dLclTimestep := pTimeHydrological
    if cellDisabled pCellData then pCellData
    else if dLclTimestep < TIMESTEP_HYDROLOGICAL then pCellData
    else
      let ulColumn := ⌊((lIdxX : ℚ) * cfg.DOMAIN_DELTAX -
        pConfiguration.GridOffsetX) / pConfiguration.GridResolution⌋
      let ulRow := ⌊((lIdxY : ℚ) * cfg.DOMAIN_DELTAY -
        pConfiguration.GridOffsetY) / pConfiguration.GridResolution⌋
      let ulBdyCell := (pConfiguration.GridCols * ulRow.toNat) +
        ulColumn.toNat
      let dRate := pValues ulBdyCell
      if pConfiguration.Definition = BOUNDARY_GRIDDED_RAIN_INTENSITY then
        { pCellData with
            x := pCellData.x + dRate / 3600000 * dLclTimestep }
      else if pConfiguration.Definition = BOUNDARY_GRIDDED_MASS_FLUX then
        { pCellData with
            x := pCellData.x + dRate /
              (cfg.DOMAIN_DELTAX * cfg.DOMAIN_DELTAY) * dLclTimestep }
      else pCellData

/-- C4 (counterexample): `bdy_Cell` has no disabled-cell guard.  A disabled
cell (here `η_max = -10000`) targeted by a cell-boundary relation with a
fixed-depth series is rewritten: its level becomes bed + 5 = 5 instead of
being copied through unchanged. -/
theorem claim_C4_counterexample :
    cellDisabled (⟨0, -10000, 0, 0⟩ : Cell4 ℝ) ∧
    bdy_Cell ⟨3, 3, 1, 1, 1, 1⟩ ⟨2, 1, 10, 1, 2, 0⟩ (fun _ => 0)
        (fun _ => ⟨0, 5, 0, 0⟩) 0 1 (fun _ => ⟨0, -10000, 0, 0⟩)
        (fun _ => 0) 0 = some (0, ⟨5, -10000, 0, 0⟩) ∧
    (⟨5, -10000, 0, 0⟩ : Cell4 ℝ) ≠ ⟨0, -10000, 0, 0⟩ := by
  refine ⟨?_, ?_, ?_⟩
  · left; norm_num
  · norm_num [bdy_Cell, BOUNDARY_DEPTH_IS_DEPTH, BOUNDARY_DEPTH_IS_FSL,
      BOUNDARY_DISCHARGE_IS_DISCHARGE, BOUNDARY_DISCHARGE_IS_VELOCITY,
      BOUNDARY_DISCHARGE_IS_VOLUME]
  · intro h
    have := congrArg Cell4.x h
    norm_num at this

/-- C4 (amended): the cache-disabled scheme kernels and the gridded
boundary kernels copy a disabled cell through unchanged (or perform no
write at all), and `bdy_Uniform` skips cells whose `η_max` carries the
sentinel; `bdy_Cell` (the counterexample), `per_Friction` and
`bdy_SimplePipe` perform no disabled-cell check. -/
theorem claim_C4_amended :
    (∀ (cfg : DomainConfig) (fr : Bool) (dt : ℝ) (bed : ℕ → ℝ)
        (src : ℕ → Cell4 ℝ) (man : ℕ → ℝ) (i j : ℤ),
      cellDisabled (src (getCellID cfg.DOMAIN_COLS i j)) →
        gts_cacheDisabled cfg fr dt bed src man i j = none ∨
        gts_cacheDisabled cfg fr dt bed src man i j =
          some (src (getCellID cfg.DOMAIN_COLS i j))) ∧
    (∀ (cfg : DomainConfig) (froude dt : ℝ) (bed : ℕ → ℝ)
        (src : ℕ → Cell4 ℝ) (man : ℕ → ℝ) (i j : ℤ),
      cellDisabled (src (getCellID cfg.DOMAIN_COLS i j)) →
        ine_cacheDisabled cfg froude dt bed src man i j = none ∨
        ine_cacheDisabled cfg froude dt bed src man i j =
          some (src (getCellID cfg.DOMAIN_COLS i j))) ∧
    (∀ (cfg : DomainConfig) (bc : sBdyGriddedConfiguration)
        (ts : ℕ → ℚ) (t dt th : ℚ) (src : ℕ → Cell4 ℚ) (bed : ℕ → ℚ)
        (i j : ℤ),
      cellDisabled (src (getCellID cfg.DOMAIN_COLS i j)) →
        bdy_Gridded cfg bc ts t dt th src bed i j =
          src (getCellID cfg.DOMAIN_COLS i j)) ∧
    (∀ (cfg : DomainConfig) (bc : sBdyGriddedConfiguration)
        (vals : ℕ → ℚ) (t dt th : ℚ) (src : ℕ → Cell4 ℚ) (bed : ℕ → ℚ)
        (i j : ℤ),
      cellDisabled (src (getCellID cfg.DOMAIN_COLS i j)) →
        bdy_StreamingGridded cfg bc vals t dt th src bed i j =
          src (getCellID cfg.DOMAIN_COLS i j)) ∧
    (∀ (cfg : DomainConfig) (bc : sBdyUniformConfiguration)
        (ts : ℕ → ℚ × ℚ) (t dt th : ℚ) (src : ℕ → Cell4 ℚ) (bed : ℕ → ℚ)
        (i j : ℤ),
      (src (getCellID cfg.DOMAIN_COLS i j)).y ≤ -9999 →
        bdy_Uniform cfg bc ts t dt th src bed i j =
          src (getCellID cfg.DOMAIN_COLS i j)) := by
  refine ⟨?_, ?_, ?_, ?_, ?_⟩
  · intro cfg fr dt bed src man i j hdis
    simp only [gts_cacheDisabled]
    by_cases h1 : cfg.DOMAIN_COLS - 1 ≤ i ∨ cfg.DOMAIN_ROWS - 1 ≤ j ∨
      i ≤ 0 ∨ j ≤ 0
    · rw [if_pos h1]; exact Or.inl rfl
    · rw [if_neg h1]
      by_cases h2 : dt ≤ 0
      · rw [if_pos h2]; exact Or.inr rfl
      · rw [if_neg h2, if_pos hdis]; exact Or.inr rfl
  · intro cfg froude dt bed src man i j hdis
    simp only [ine_cacheDisabled]
    by_cases h1 : cfg.DOMAIN_COLS - 1 ≤ i ∨ cfg.DOMAIN_ROWS - 1 ≤ j ∨
      i ≤ 0 ∨ j ≤ 0
    · rw [if_pos h1]; exact Or.inl rfl
    · rw [if_neg h1]
      by_cases h2 : dt ≤ 0
      · rw [if_pos h2]; exact Or.inl rfl
      · rw [if_neg h2, if_pos hdis]; exact Or.inr rfl
  · intro cfg bc ts t dt th src bed i j hdis
    simp only [bdy_Gridded]
    by_cases h1 : cfg.DOMAIN_COLS - 1 ≤ i ∨ cfg.DOMAIN_ROWS - 1 ≤ j ∨
      i ≤ 0 ∨ j ≤ 0
    · rw [if_pos h1]
    · rw [if_neg h1, if_pos hdis]
  · intro cfg bc vals t dt th src bed i j hdis
    simp only [bdy_StreamingGridded]
    by_cases h1 : cfg.DOMAIN_COLS - 1 ≤ i ∨ cfg.DOMAIN_ROWS - 1 ≤ j ∨
      i ≤ 0 ∨ j ≤ 0
    · rw [if_pos h1]
    · rw [if_neg h1, if_pos hdis]
  · intro cfg bc ts t dt th src bed i j hmax
    simp only [bdy_Uniform]
    by_cases h1 : cfg.DOMAIN_COLS - 1 ≤ i ∨ cfg.DOMAIN_ROWS - 1 ≤ j ∨
      i ≤ 0 ∨ j ≤ 0
    · rw [if_pos h1]
    · rw [if_neg h1]
      by_cases h2 : th < TIMESTEP_HYDROLOGICAL ∨ dt ≤ 0
      · rw [if_pos h2]
      · rw [if_neg h2, if_pos (Or.inr hmax)]

/-- C4 (witness): the amended statement instantiated at a disabled cell
`(0, -10000, 0, 0)` in a 4×4 domain. -/
theorem claim_C4_amended_witness :
    (gts_cacheDisabled ⟨4, 4, 1, 1, 1, 1⟩ false 1 (fun _ => 0)
        (fun _ => ⟨0, -10000, 0, 0⟩) (fun _ => 0) 1 1 = none ∨
      gts_cacheDisabled ⟨4, 4, 1, 1, 1, 1⟩ false 1 (fun _ => 0)
        (fun _ => ⟨0, -10000, 0, 0⟩) (fun _ => 0) 1 1 =
        some ⟨0, -10000, 0, 0⟩) ∧
    (ine_cacheDisabled ⟨4, 4, 1, 1, 1, 1⟩ 1 1 (fun _ => 0)
        (fun _ => ⟨0, -10000, 0, 0⟩) (fun _ => 0) 1 1 = none ∨
      ine_cacheDisabled ⟨4, 4, 1, 1, 1, 1⟩ 1 1 (fun _ => 0)
        (fun _ => ⟨0, -10000, 0, 0⟩) (fun _ => 0) 1 1 =
        some ⟨0, -10000, 0, 0⟩) ∧
    bdy_Gridded ⟨4, 4, 1, 1, 1, 1⟩ ⟨1, 1, 0, 0, 1, 0, 1, 1⟩ (fun _ => 0)
      0 1 1 (fun _ => ⟨0, -10000, 0, 0⟩) (fun _ => 0) 1 1 =
      ⟨0, -10000, 0, 0⟩ ∧
    bdy_StreamingGridded ⟨4, 4, 1, 1, 1, 1⟩ ⟨1, 1, 0, 0, 1, 0, 1, 1⟩
      (fun _ => 0) 0 1 1 (fun _ => ⟨0, -10000, 0, 0⟩) (fun _ => 0) 1 1 =
      ⟨0, -10000, 0, 0⟩ ∧
    bdy_Uniform ⟨4, 4, 1, 1, 1, 1⟩ ⟨1, 1, 10, 0⟩ (fun _ => (0, 0))
      0 1 1 (fun _ => ⟨0, -10000, 0, 0⟩) (fun _ => 0) 1 1 =
      ⟨0, -10000, 0, 0⟩ :=
  ⟨claim_C4_amended.1 ⟨4, 4, 1, 1, 1, 1⟩ false 1 (fun _ => 0)
      (fun _ => ⟨0, -10000, 0, 0⟩) (fun _ => 0) 1 1
      (Or.inl (by norm_num)),
    claim_C4_amended.2.1 ⟨4, 4, 1, 1, 1, 1⟩ 1 1 (fun _ => 0)
      (fun _ => ⟨0, -10000, 0, 0⟩) (fun _ => 0) 1 1
      (Or.inl (by norm_num)),
    claim_C4_amended.2.2.1 ⟨4, 4, 1, 1, 1, 1⟩ ⟨1, 1, 0, 0, 1, 0, 1, 1⟩
      (fun _ => 0) 0 1 1 (fun _ => ⟨0, -10000, 0, 0⟩) (fun _ => 0) 1 1
      (Or.inl (by norm_num)),
    claim_C4_amended.2.2.2.1 ⟨4, 4, 1, 1, 1, 1⟩ ⟨1, 1, 0, 0, 1, 0, 1, 1⟩
      (fun _ => 0) 0 1 1 (fun _ => ⟨0, -10000, 0, 0⟩) (fun _ => 0) 1 1
      (Or.inl (by norm_num)),
    claim_C4_amended.2.2.2.2 ⟨4, 4, 1, 1, 1, 1⟩ ⟨1, 1, 10, 0⟩
      (fun _ => (0, 0)) 0 1 1 (fun _ => ⟨0, -10000, 0, 0⟩) (fun _ => 0)
      1 1 (by norm_num)⟩

/-- C5: a zero-timestep step is not bit-identical: `bdy_Gridded` never
reads the real timestep, so with `Δt = 0` and a hydrological sub-clock at
0.3 s it still adds rainfall (10 mm/hr series value 36000 mm/hr · 0.3 s
here raises the level by 0.003 m), contradicting the zero-Δt
idempotence. -/
theorem claim_C5_zero_timestep_bug :
    bdy_Gridded ⟨3, 3, 1, 1, 1, 1⟩ ⟨1, 1, 1, 1, 1, 0, 1, 1⟩
        (fun _ => 36000) 0 0 (3/10) (fun _ => ⟨0, 5, 0, 0⟩)
        (fun _ => 0) 1 1 = ⟨3/1000, 5, 0, 0⟩ ∧
    (⟨3/1000, 5, 0, 0⟩ : Cell4 ℚ) ≠ ⟨0, 5, 0, 0⟩ := by
  constructor
  · norm_num [bdy_Gridded, bdy_Gridded_bufferIndex, cellDisabled,
      TIMESTEP_HYDROLOGICAL, BOUNDARY_GRIDDED_RAIN_INTENSITY,
      BOUNDARY_GRIDDED_MASS_FLUX, getCellID]
  · intro h
    have := congrArg Cell4.x h
    norm_num at this

/-- C8: the timeseries slab clamp of `bdy_Gridded` is off by one: it clamps
the slab index to `TimeseriesEntries` instead of `TimeseriesEntries - 1`,
so for a time beyond the series end the linear buffer index reaches
`TimeseriesEntries · GridRows · GridCols`, which is not strictly within
the resident buffer.  Here: 2 entries of one value each, `t = 5`,
interval 1, index = 2 = buffer size. -/
theorem claim_C8_gridded_index_bug :
    bdy_Gridded_bufferIndex ⟨3, 3, 1, 1, 1, 1⟩ ⟨1, 1, 1, 1, 2, 0, 1, 1⟩
        5 1 1 = 2 ∧
    ¬ (bdy_Gridded_bufferIndex ⟨3, 3, 1, 1, 1, 1⟩ ⟨1, 1, 1, 1, 2, 0, 1, 1⟩
        5 1 1 < 2 * 1 * 1) := by
  constructor
  · norm_num [bdy_Gridded_bufferIndex]
  · norm_num [bdy_Gridded_bufferIndex]

/-- C10: when an enabled interior cell and its four neighbours are all dry
and the timestep is positive, both cache-disabled scheme kernels return
without writing anything to the destination buffer (result `none`), so the
destination retains its previous contents rather than a copy of the source
cell. -/
theorem claim_C10_dry_no_write (cfg : DomainConfig)
    (frictionInKernel : Bool) (FROUDE_LIMIT dTimestep : ℝ)
    (dBedElevation : ℕ → ℝ) (pCellStateSrc : ℕ → Cell4 ℝ)
    (dManning : ℕ → ℝ) (lIdxX lIdxY : ℤ)
    (hx1 : 0 < lIdxX) (hx2 : lIdxX < cfg.DOMAIN_COLS - 1)
    (hy1 : 0 < lIdxY) (hy2 : lIdxY < cfg.DOMAIN_ROWS - 1)
    (hdt : 0 < dTimestep)
    (hdis : ¬ cellDisabled
      (pCellStateSrc (getCellID cfg.DOMAIN_COLS lIdxX lIdxY)))
    (hdryC : (pCellStateSrc (getCellID cfg.DOMAIN_COLS lIdxX lIdxY)).x -
      dBedElevation (getCellID cfg.DOMAIN_COLS lIdxX lIdxY) <
        (VERY_SMALL : ℝ))
    (hdryN : (pCellStateSrc (getNeighbourByIndices cfg.DOMAIN_COLS lIdxX
        lIdxY DOMAIN_DIR_N)).x -
      dBedElevation (getNeighbourByIndices cfg.DOMAIN_COLS lIdxX lIdxY
        DOMAIN_DIR_N) < (VERY_SMALL : ℝ))
    (hdryE : (pCellStateSrc (getNeighbourByIndices cfg.DOMAIN_COLS lIdxX
        lIdxY DOMAIN_DIR_E)).x -
      dBedElevation (getNeighbourByIndices cfg.DOMAIN_COLS lIdxX lIdxY
        DOMAIN_DIR_E) < (VERY_SMALL : ℝ))
    (hdryS : (pCellStateSrc (getNeighbourByIndices cfg.DOMAIN_COLS lIdxX
        lIdxY DOMAIN_DIR_S)).x -
      dBedElevation (getNeighbourByIndices cfg.DOMAIN_COLS lIdxX lIdxY
        DOMAIN_DIR_S) < (VERY_SMALL : ℝ))
    (hdryW : (pCellStateSrc (getNeighbourByIndices cfg.DOMAIN_COLS lIdxX
        lIdxY DOMAIN_DIR_W)).x -
      dBedElevation (getNeighbourByIndices cfg.DOMAIN_COLS lIdxX lIdxY
        DOMAIN_DIR_W) < (VERY_SMALL : ℝ)) :
    gts_cacheDisabled cfg frictionInKernel dTimestep dBedElevation
      pCellStateSrc dManning lIdxX lIdxY = none ∧
    ine_cacheDisabled cfg FROUDE_LIMIT dTimestep dBedElevation
      pCellStateSrc dManning lIdxX lIdxY = none := by
  have hb : ¬ (cfg.DOMAIN_COLS - 1 ≤ lIdxX ∨ cfg.DOMAIN_ROWS - 1 ≤ lIdxY ∨
      lIdxX ≤ 0 ∨ lIdxY ≤ 0) := by
    push_neg
    exact ⟨hx2, hy2, hx1, hy1⟩
  constructor
  · simp only [gts_cacheDisabled]
    rw [if_neg hb, if_neg (not_le.mpr hdt), if_neg hdis,
      if_pos hdryC, if_pos hdryN, if_pos hdryE, if_pos hdryS,
      if_pos hdryW]
    norm_num
  · simp only [ine_cacheDisabled]
    rw [if_neg hb, if_neg (not_le.mpr hdt), if_neg hdis,
      if_pos hdryC, if_pos hdryN, if_pos hdryE, if_pos hdryS,
      if_pos hdryW]
    norm_num

/-- C10 (witness): a fully dry enabled 4×4 domain at cell (1,1) with a
unit timestep: neither scheme kernel writes. -/
theorem claim_C10_dry_no_write_witness :
    gts_cacheDisabled ⟨4, 4, 1, 1, 1, 1⟩ false 1 (fun _ => 0)
      (fun _ => ⟨0, 0, 0, 0⟩) (fun _ => 0) 1 1 = none ∧
    ine_cacheDisabled ⟨4, 4, 1, 1, 1, 1⟩ 1 1 (fun _ => 0)
      (fun _ => ⟨0, 0, 0, 0⟩) (fun _ => 0) 1 1 = none :=
  claim_C10_dry_no_write ⟨4, 4, 1, 1, 1, 1⟩ false 1 1 (fun _ => 0)
    (fun _ => ⟨0, 0, 0, 0⟩) (fun _ => 0) 1 1
    (by norm_num) (by norm_num) (by norm_num) (by norm_num) (by norm_num)
    (by norm_num [cellDisabled]) (by norm_num [VERY_SMALL])
    (by norm_num [VERY_SMALL]) (by norm_num [VERY_SMALL])
    (by norm_num [VERY_SMALL]) (by norm_num [VERY_SMALL])

/-! ## Simple pipe boundary (`bdy_SimplePipe`)

The iterative Darcy-Weisbach solver uses `sqrt`, `log10`, `acos` and `sin`,
so this part is modelled over `ℝ`.  The deliberate `sqrt(-1.0)` NaN poison
on non-convergence is modelled by `Option ℝ` on the discharge: `none` is
NaN.  The `while` loop is modelled by fuel-indexed recursion; the fuel
`maxIterations + 1` dominates the iteration cap, so the model exits exactly
when the source condition fails. -/

def maxIterations : ℕ := 5000

structure sBndySPipeConfiguration where
  uiStartCellX : ℕ
  uiStartCellY : ℕ
  uiEndCellX : ℕ
  uiEndCellY : ℕ
  length : ℝ
  roughness : ℝ
  lossCoefficients : ℝ
  diameter : ℝ
  invertStart : ℝ
  invertEnd : ℝ

/-- Base-10 logarithm. -/
noncomputable def log10 (x : ℝ) : ℝ := Real.log x / Real.log 10

/-- The OpenCL `sign` function on doubles (NaN aside). -/
noncomputable def csign (x : ℝ) : ℝ :=
  if 0 < x then 1 else if x < 0 then -1 else 0

/-- State of the Darcy-Weisbach fixed-point iteration: friction head loss
estimate, velocity, local head terms, head balance error, iteration
count. -/
structure PipeIterState where
  dFrictionHeadLossEst : ℝ
  dVelocity : ℝ
  dOtherHeadTerms : ℝ
  dError : ℝ
  uiIterations : ℕ

/-- One iteration of the Darcy-Weisbach loop body of `bdy_SimplePipe`:
update the friction head loss estimate (initial value, direct reduction by
the other head terms, or adaptive signed step with multiplier 0.2 or 0.002
and minimum 1e-5), back off by 2/3 of the previous estimate on a negative
overshoot, then evaluate the Colebrook-White velocity, the local head loss
and the head balance error. -/
noncomputable def bdy_SimplePipe_iter (pConfig : sBndySPipeConfiguration)
    (kd dWettedDiameter dInitialFrictionHeadLoss : ℝ)
    (s : PipeIterState) : PipeIterState :=
  let uiIterations := s.uiIterations + 1
  let dLastFrictionHeadLoss := s.dFrictionHeadLossEst
  let dFrictionHeadLossEst :=
    if uiIterations ≤ 1 then dInitialFrictionHeadLoss
    else
      if s.dOtherHeadTerms < s.dFrictionHeadLossEst then
        s.dFrictionHeadLossEst - s.dOtherHeadTerms
      else
        let dMultiplier : ℝ := if |s.dError| < 0.2 then 0.002 else 0.2
        let dSign := csign s.dError
        s.dFrictionHeadLossEst + dSign *
          max (min |s.dError| s.dFrictionHeadLossEst * dMultiplier) 0.00001
  let dFrictionHeadLossEst :=
    if dFrictionHeadLossEst < 0 then dLastFrictionHeadLoss * 2 / 3
    else dFrictionHeadLossEst
  let darcy_weisbach_term := Real.sqrt (2 * (GRAVITY : ℝ) *
    dWettedDiameter * dFrictionHeadLossEst / pConfig.length)
  let dVelocity := -2 *
    log10 (kd + (2.51 * 1.13e-6) /
      (dWettedDiameter * darcy_weisbach_term)) * darcy_weisbach_term
  let dOtherHeadTerms := pConfig.lossCoefficients *
    (dVelocity * dVelocity * (GRAVITY2_R : ℝ))
  let dError := dInitialFrictionHeadLoss - dFrictionHeadLossEst -
    dOtherHeadTerms
  ⟨dFrictionHeadLossEst, dVelocity, dOtherHeadTerms, dError, uiIterations⟩

/-- The Darcy-Weisbach `while` loop: iterate while fewer than
`maxIterations` iterations have run and the head balance error exceeds
1e-4. -/
noncomputable def bdy_SimplePipe_loop (pConfig : sBndySPipeConfiguration)
    (kd dWettedDiameter dInitialFrictionHeadLoss : ℝ) :
    ℕ → PipeIterState → PipeIterState
  | 0, s => s
  | fuel + 1, s =>
    if s.uiIterations < maxIterations ∧ (0.0001 : ℝ) < |s.dError| then
      bdy_SimplePipe_loop pConfig kd dWettedDiameter
        dInitialFrictionHeadLoss fuel
        (bdy_SimplePipe_iter pConfig kd dWettedDiameter
          dInitialFrictionHeadLoss s)
    else s

/-- The committed pipe discharge after the loop (lines 493-499 of
CLBoundaries.clc): on non-convergence the NaN poison (`none`) is stored,
and then the next statement unconditionally overwrites the variable with
`dVelocity · π · (D_w/2)²`.  The poison is therefore dead. -/
noncomputable def bdy_SimplePipe_committedDischarge (uiIterations : ℕ)
    (dError dVelocity dWettedDiameter : ℝ) : Option ℝ :=
  let dPipeDischarge : Option ℝ := some 0
  let dPipeDischarge :=
    if maxIterations ≤ uiIterations ∨ (0.0001 : ℝ) < |dError| then
      (none : Option ℝ)
    else dPipeDischarge
  let dPipeDischarge := some (dVelocity * (PI : ℝ) *
    (dWettedDiameter * 0.5) * (dWettedDiameter * 0.5))
  dPipeDischarge

/-- The endpoint write-back of `bdy_SimplePipe` (lines 511-523): zero the
downstream discharges when the downstream cell is dry, lower the upstream
level (clamped to the bed) and raise the downstream level by the
transferred volume, and zero the upstream discharges if the upstream runs
dry.  A NaN discharge (`none`) would poison both written states; a finite
discharge produces finite states. -/
noncomputable def bdy_SimplePipe_commit (cfg : DomainConfig)
    (dLocalTimestep : ℝ) (pStartData : Cell4 ℝ) (dStartBed : ℝ)
    (pEndData : Cell4 ℝ) (dEndBed : ℝ) (dPipeDischarge : Option ℝ) :
    Option (Cell4 ℝ × Cell4 ℝ) :=
  dPipeDischarge.map (fun q =>
    let pEndData :=
      if pEndData.x < dEndBed + (VERY_SMALL : ℝ) then
        { pEndData with z := 0, w := 0 }
      else pEndData
    let pStartData := { pStartData with
      x := max dStartBed (pStartData.x - (q * dLocalTimestep) /
        ((cfg.DOMAIN_DELTAX : ℝ) * (cfg.DOMAIN_DELTAY : ℝ))) }
    let pEndData := { pEndData with
      x := max dEndBed pEndData.x + (q * dLocalTimestep) /
        ((cfg.DOMAIN_DELTAX : ℝ) * (cfg.DOMAIN_DELTAY : ℝ)) }
    let pStartData :=
      if pStartData.x < dStartBed + (VERY_SMALL : ℝ) then
        { pStartData with z := 0, w := 0 }
      else pStartData
    (pStartData, pEndData))

/-- The `bdy_SimplePipe` kernel: guards (non-positive timestep, empty or
sunken pipe, NODATA endpoints, non-positive initial head), partial-pipe
shape factor, the Darcy-Weisbach loop, the committed discharge and the
endpoint write-back.  `none` models the guard returns; the committed
discharge is always `some`, so the write-back stage never sees the
poison. -/
noncomputable def bdy_SimplePipe (cfg : DomainConfig)
    (pConfig : sBndySPipeConfiguration) (pTime pTimestep : ℝ)
    (pCellState : ℕ → Cell4 ℝ) (pCellBed : ℕ → ℝ) :
    Option (Cell4 ℝ × Cell4 ℝ) :=
  if pTimestep ≤ 0 then none
  else
    let ulIdxStart := getCellID cfg.DOMAIN_COLS (pConfig.uiStartCellX : ℤ)
      (pConfig.uiStartCellY : ℤ)
    let ulIdxEnd := getCellID cfg.DOMAIN_COLS (pConfig.uiEndCellX : ℤ)
      (pConfig.uiEndCellY : ℤ)
    let pStartData := pCellState ulIdxStart
    let dStartBed := pCellBed ulIdxStart
    let pEndData := pCellState ulIdxEnd
    let dEndBed := pCellBed ulIdxEnd
    let dInvertStart :=
      if pConfig.invertStart ≤ -9999 then dStartBed else pConfig.invertStart
    let dInvertEnd :=
      if pConfig.invertEnd ≤ -9999 then dEndBed else pConfig.invertEnd
    if pStartData.x - dInvertStart < (VERY_SMALL : ℝ) ∨
        dInvertStart < dStartBed then none
    else if dStartBed ≤ -9999 then none
    else if dEndBed ≤ -9999 then none
    else
      let dProportionalDepthAngle := (PI : ℝ) * 2
      let dPartialShapeFactor : ℝ := 1
      let shape :=
        if pStartData.x - dInvertStart < pConfig.diameter then
          let a := 2 * Real.arccos (1 -
            (2 * (pStartData.x - dInvertStart)) / pConfig.diameter)
          (a, if 0 < a then (a - Real.sin a) / a else dPartialShapeFactor)
        else (dProportionalDepthAngle, dPartialShapeFactor)
      let dWettedDiameter := pConfig.diameter * shape.2
      let dInitialFrictionHeadLoss :=
        if 0 < pStartData.x - dInvertStart then
          (dInvertStart + ((max dInvertStart pStartData.x -
            dInvertStart) * 0.5)) -
          (dInvertEnd + ((max dInvertEnd pEndData.x - dInvertEnd) * 0.5))
        else 0
      if dInitialFrictionHeadLoss ≤ 0 then none
      else
        let kd := (pConfig.roughness * 0.001) / (3.71 * dWettedDiameter)
        let s := bdy_SimplePipe_loop pConfig kd dWettedDiameter
          dInitialFrictionHeadLoss (maxIterations + 1)
          ⟨0, 0, 0, 9999999999.9, 0⟩
        let dPipeDischarge := bdy_SimplePipe_committedDischarge
          s.uiIterations s.dError s.dVelocity dWettedDiameter
        bdy_SimplePipe_commit cfg pTimestep pStartData dStartBed
          pEndData dEndBed dPipeDischarge

/-- C1: the NaN poison of the pipe solver is dead code.  At a
non-convergent loop outcome (iteration cap reached, head balance error 1
above the 1e-4 tolerance) the discharge variable is first poisoned and
then unconditionally overwritten with the finite value
`dVelocity·π·(D_w/2)²`, so the values written back to the endpoint water
levels are finite, not NaN. -/
theorem claim_C1_pipe_nan_poison_dead :
    (maxIterations ≤ 5000 ∧ (0.0001 : ℝ) < |(1 : ℝ)|) ∧
    bdy_SimplePipe_committedDischarge 5000 1 3 (1/2) =
      some (3 * (PI : ℝ) * ((1/2 : ℝ) * 0.5) * ((1/2 : ℝ) * 0.5)) ∧
    (bdy_SimplePipe_committedDischarge 5000 1 3 (1/2)).isSome = true ∧
    (bdy_SimplePipe_commit ⟨3, 3, 1, 1, 1, 1⟩ 1 ⟨2, 2, 0, 0⟩ 0
      ⟨0, 0, 0, 0⟩ 0
      (bdy_SimplePipe_committedDischarge 5000 1 3 (1/2))).isSome =
        true := by
  refine ⟨⟨by norm_num [maxIterations], by norm_num⟩, rfl, rfl, rfl⟩
